import Mathlib

/-!
# Authentication callback coordinator of `auth-form.js`

A shallow embedding of the redirect resolver, the token dedup gate and the
auth-event handler of `src/auth-form.js`, followed by the properties proved
about them.

The browser is the environment of the script.  What the script reads from it
(`window.location`, the parsed query string, the `URL` constructor, the date
parser) is collected in the structure `Browser`; general theorems hold for
every `Browser`.  Concrete evaluations use `exampleBrowser`, whose `URL`
constructor is the model `WebURL.newURL` of the URL Standard's basic parser.

An expression that can throw has a `Completion` as its value, and a throw
inside the `try` block of `handleAuthChange` runs its `catch` block.
-/

namespace AuthForm

/-! ## Model of the browser's URL parser (URL Standard), origin-relevant part -/

namespace WebURL

/-- The components of a URL record that decide whether parsing fails and what
the origin is: scheme, host, port, and, for a URL whose path is a single
string rather than a list of segments (`mailto:x`, `blob:...`), that string. -/
structure URLRecord where
  scheme : String
  host : Option String
  port : Option Nat
  rawPath : Option (List Char)
  deriving DecidableEq, Repr

/-- C0 control or space: U+0000 to U+0020. -/
def isC0OrSpace (c : Char) : Bool := decide (c.toNat ≤ 0x20)

/-- ASCII tab or newline: U+0009, U+000A, U+000D. -/
def isTabOrNewline (c : Char) : Bool := c == '\t' || c == '\n' || c == '\r'

/-- Input preprocessing of the basic URL parser: leading and trailing C0
control or space are stripped, then every ASCII tab or newline is removed. -/
def preprocess (cs : List Char) : List Char :=
  (((cs.dropWhile isC0OrSpace).reverse.dropWhile isC0OrSpace).reverse).filter
    (fun c => !isTabOrNewline c)

/-- Default port of a special scheme; `none` for a scheme that is not special. -/
def defaultPort (scheme : String) : Option (Option Nat) :=
  if scheme = "ftp" then some (some 21)
  else if scheme = "file" then some none
  else if scheme = "http" then some (some 80)
  else if scheme = "https" then some (some 443)
  else if scheme = "ws" then some (some 80)
  else if scheme = "wss" then some (some 443)
  else none

def isSpecial (scheme : String) : Bool := (defaultPort scheme).isSome

def isSchemeChar (c : Char) : Bool :=
  c.isAlphanum || c == '+' || c == '-' || c == '.'

/-- Scheme start state and scheme state: an ASCII alpha followed by scheme
characters up to a colon gives the lower-cased scheme and the remaining input;
anything else has no scheme. -/
def splitScheme (cs : List Char) : Option (String × List Char) :=
  match cs with
  | [] => none
  | c :: rest =>
    if c.isAlpha then
      match rest.dropWhile isSchemeChar with
      | ':' :: r => some (String.mk ((c :: rest.takeWhile isSchemeChar).map Char.toLower), r)
      | _ => none
    else none

def isForbiddenHostChar (c : Char) : Bool :=
  c.toNat == 0 || c == '\t' || c == '\n' || c == '\r' || c == ' ' || c == '#' ||
  c == '/' || c == ':' || c == '<' || c == '>' || c == '?' || c == '@' ||
  c == '[' || c == '\\' || c == ']' || c == '^' || c == '|'

def isForbiddenDomainChar (c : Char) : Bool :=
  isForbiddenHostChar c || decide (c.toNat ≤ 0x1F) || c == '%' || c.toNat == 0x7F

/-- Value of a digit in the given radix (8, 10 or 16). -/
def digitValue (radix : Nat) (c : Char) : Option Nat :=
  let v : Option Nat :=
    if c.isDigit then some (c.toNat - '0'.toNat)
    else if decide ('a'.toNat ≤ c.toNat) && decide (c.toNat ≤ 'f'.toNat) then some (c.toNat - 'a'.toNat + 10)
    else if decide ('A'.toNat ≤ c.toNat) && decide (c.toNat ≤ 'F'.toNat) then some (c.toNat - 'A'.toNat + 10)
    else none
  match v with
  | some n => if n < radix then some n else none
  | none => none

def parseRadix (radix : Nat) (cs : List Char) : Option Nat :=
  cs.foldl (fun acc c => match acc, digitValue radix c with
    | some a, some d => some (a * radix + d)
    | _, _ => none) (some 0)

/-- The IPv4 number parser. -/
def parseIPv4Number (cs : List Char) : Option Nat :=
  match cs with
  | [] => none
  | '0' :: 'x' :: r => parseRadix 16 r
  | '0' :: 'X' :: r => parseRadix 16 r
  | '0' :: c :: r => parseRadix 8 (c :: r)
  | _ => parseRadix 10 cs

/-- Split a list of characters at every occurrence of `sep`. -/
def splitAt (sep : Char) (cs : List Char) : List (List Char) :=
  cs.foldr (fun c acc =>
    if c == sep then [] :: acc
    else match acc with
      | [] => [[c]]
      | p :: ps => (c :: p) :: ps) [[]]

/-- The parts of a host the IPv4 routines look at: split on dots, one trailing
empty part dropped. -/
def ipv4Parts (cs : List Char) : List (List Char) :=
  let parts := splitAt '.' cs
  match parts.reverse with
  | [] :: (p :: ps) => (p :: ps).reverse
  | _ => parts

/-- The ends-in-a-number checker. -/
def endsInNumber (cs : List Char) : Bool :=
  match (ipv4Parts cs).reverse with
  | [] => false
  | last :: _ =>
    (!last.isEmpty && last.all Char.isDigit) || (parseIPv4Number last).isSome

/-- The IPv4 parser, giving the address as a number. -/
def parseIPv4 (cs : List Char) : Option Nat :=
  let parts := ipv4Parts cs
  if parts.length > 4 then none
  else
    match parts.mapM parseIPv4Number with
    | none => none
    | some numbers =>
      match numbers.reverse with
      | [] => none
      | last :: front =>
        if front.any (fun n => decide (n > 255)) then none
        else if last ≥ 256 ^ (5 - numbers.length) then none
        else some (last + ((front.reverse.enum.map
          (fun p => p.2 * 256 ^ (3 - p.1))).foldl (· + ·) 0))

def natToDigits (n : Nat) : List Char := (Nat.toDigits 10 n)

def serializeIPv4 (a : Nat) : List Char :=
  natToDigits (a / 256 ^ 3 % 256) ++ '.' :: natToDigits (a / 256 ^ 2 % 256) ++
    '.' :: natToDigits (a / 256 % 256) ++ '.' :: natToDigits (a % 256)

/-- The host parser on ASCII input without percent-escapes.  A host of a
special scheme is lower-cased, checked for forbidden domain code points and,
when it ends in a number, parsed as an IPv4 address; a host of another scheme
is checked for forbidden host code points.  Bracketed IPv6 literals,
percent-escapes and non-ASCII names (which need the IDNA tables) are outside
this model and give `none`. -/
def parseHost (special : Bool) (cs : List Char) : Option String :=
  if cs.any (fun c => decide (c.toNat ≥ 0x80) || c == '%' || c == '[') then none
  else if !special then
    if cs.any isForbiddenHostChar then none else some (String.mk cs)
  else
    let d := cs.map Char.toLower
    if d.isEmpty then none
    else if d.any isForbiddenDomainChar then none
    else if endsInNumber d then (parseIPv4 d).map (fun a => String.mk (serializeIPv4 a))
    else some (String.mk d)

/-- End of the authority: `/`, `?`, `#`, and `\` for a special scheme. -/
def isAuthorityEnd (special : Bool) (c : Char) : Bool :=
  c == '/' || c == '?' || c == '#' || (special && c == '\\')

/-- The part of the authority after its last `@`. -/
def afterLastAt (auth : List Char) : List Char :=
  (auth.reverse.takeWhile (fun c => c != '@')).reverse

/-- Port state: decimal digits only, at most 65535; the default port of the
scheme is stored as null. -/
def parsePort (scheme : String) (cs : List Char) : Option (Option Nat) :=
  if cs.isEmpty then some none
  else if cs.all Char.isDigit then
    match parseRadix 10 cs with
    | none => none
    | some p =>
      if p > 65535 then none
      else if defaultPort scheme = some (some p) then some none
      else some (some p)
  else none

/-- Authority, host and port states. -/
def parseAuthority (scheme : String) (cs : List Char) : Option URLRecord :=
  let special := isSpecial scheme
  let auth := cs.takeWhile (fun c => !isAuthorityEnd special c)
  let hostport := afterLastAt auth
  if auth.contains '@' && hostport.isEmpty then none
  else
    let name := hostport.takeWhile (fun c => c != ':')
    match hostport.dropWhile (fun c => c != ':') with
    | [] =>
      if name.isEmpty then
        if special then none
        else some { scheme := scheme, host := some "", port := none, rawPath := none }
      else
        (parseHost special name).map
          (fun h => { scheme := scheme, host := some h, port := none, rawPath := none })
    | _ :: portChars =>
      if name.isEmpty then none
      else
        match parseHost special name, parsePort scheme portChars with
        | some h, some p => some { scheme := scheme, host := some h, port := p, rawPath := none }
        | _, _ => none

def isSlash (c : Char) : Bool := c == '/' || c == '\\'

/-- Special authority slashes state and special authority ignore slashes
state: every leading `/` and `\` is skipped, then the authority is read. -/
def parseSpecialAuthority (scheme : String) (cs : List Char) : Option URLRecord :=
  parseAuthority scheme (cs.dropWhile isSlash)

/-- File state, file slash state and file host state. -/
def parseFile (cs : List Char) (base : Option URLRecord) : Option URLRecord :=
  let baseHost : Option String :=
    match base with
    | some b => if b.scheme = "file" then b.host else some ""
    | none => some ""
  match cs with
  | c1 :: c2 :: rest =>
    if isSlash c1 && isSlash c2 then
      let buf := rest.takeWhile (fun c => !(isSlash c || c == '?' || c == '#'))
      match buf with
      | [] => some { scheme := "file", host := some "", port := none, rawPath := none }
      | [d, e] =>
        if d.isAlpha && (e == ':' || e == '|') then
          some { scheme := "file", host := some "", port := none, rawPath := none }
        else (parseHost true buf).map (fun h =>
          { scheme := "file", host := some (if h = "localhost" then "" else h),
            port := none, rawPath := none })
      | _ => (parseHost true buf).map (fun h =>
          { scheme := "file", host := some (if h = "localhost" then "" else h),
            port := none, rawPath := none })
    else some { scheme := "file", host := baseHost, port := none, rawPath := none }
  | _ => some { scheme := "file", host := baseHost, port := none, rawPath := none }

/-- Relative state and relative slash state: the scheme is the base's; an
input starting with two slashes (for a special scheme, any two of `/` and `\`)
carries its own authority, anything else keeps the base's host and port. -/
def parseRelative (cs : List Char) (b : URLRecord) : Option URLRecord :=
  let special := isSpecial b.scheme
  let keep : URLRecord := { scheme := b.scheme, host := b.host, port := b.port, rawPath := none }
  match cs with
  | c1 :: rest =>
    if c1 == '/' || (special && c1 == '\\') then
      match rest with
      | c2 :: rest2 =>
        if special && isSlash c2 then parseSpecialAuthority b.scheme rest2
        else if c2 == '/' then parseAuthority b.scheme rest2
        else some keep
      | [] => some keep
    else some keep
  | [] => some keep

/-- The basic URL parser on `input` with an optional base URL, without a state
override: `none` is the parser's failure. -/
def parse (input : String) (base : Option URLRecord) : Option URLRecord :=
  let cs := preprocess input.data
  match splitScheme cs with
  | some (scheme, rest) =>
    if scheme = "file" then parseFile rest base
    else if isSpecial scheme then
      match base with
      | some b =>
        if b.scheme = scheme then
          match rest with
          | '/' :: '/' :: r => parseSpecialAuthority scheme r
          | _ => parseRelative rest b
        else parseSpecialAuthority scheme rest
      | none => parseSpecialAuthority scheme rest
    else
      match rest with
      | '/' :: '/' :: r => parseAuthority scheme r
      | '/' :: _ => some { scheme := scheme, host := none, port := none, rawPath := none }
      | _ => some { scheme := scheme, host := none, port := none,
                    rawPath := some (rest.takeWhile (fun c => !(c == '?' || c == '#'))) }
  | none =>
    match base with
    | none => none
    | some b =>
      if b.rawPath.isSome then
        match cs with
        | '#' :: _ => some b
        | _ => none
      else if b.scheme = "file" then parseFile cs base
      else parseRelative cs b

/-- Serialization of a tuple origin. -/
def tupleOrigin (u : URLRecord) : String :=
  u.scheme ++ "://" ++ u.host.getD "" ++
    (match u.port with
     | some p => ":" ++ String.mk (natToDigits p)
     | none => "")

/-- The serialized origin of a URL (the `origin` getter): a tuple origin for
`http`, `https`, `ftp`, `ws`, `wss`; for `blob` the origin of the URL in its
path when that is `http` or `https`; `"null"` otherwise. -/
def URLRecord.origin (u : URLRecord) : String :=
  if u.scheme = "http" ∨ u.scheme = "https" ∨ u.scheme = "ftp" ∨ u.scheme = "ws" ∨
      u.scheme = "wss" then tupleOrigin u
  else if u.scheme = "blob" then
    match u.rawPath with
    | some p =>
      match parse (String.mk p) none with
      | some inner =>
        if inner.scheme = "http" ∨ inner.scheme = "https" then tupleOrigin inner else "null"
      | none => "null"
    | none => "null"
  else "null"

/-- The constructor `new URL(url, base)` with both arguments strings: the base
is parsed first, then `url` against it; `none` when the constructor throws. -/
def newURL (url base : String) : Option URLRecord :=
  match parse base none with
  | none => none
  | some b => parse url (some b)

end WebURL

/-! ## Environment of the script -/

/-- Result of evaluating a JavaScript expression: it completes normally with a
value, or it throws. -/
inductive Completion (α : Type) where
  | normal (value : α)
  | throw
  deriving DecidableEq, Repr

/-- A value that can reach `window.location.href` in the script: a string, or
the member of that name which a plain object inherits from `Object.prototype`
(a function such as `constructor`, or the prototype object for `__proto__`). -/
inductive JSValue where
  | str (s : String)
  | inherited (key : String)
  deriving DecidableEq, Repr

/-- JavaScript truthiness: a string is truthy when non-empty, an object or
function always. -/
def JSValue.truthy : JSValue → Bool
  | JSValue.str s => s != ""
  | JSValue.inherited _ => true

/-- The property names every plain object inherits from `Object.prototype`. -/
def objectPrototypeKeys : List String :=
  ["constructor", "hasOwnProperty", "isPrototypeOf", "propertyIsEnumerable",
   "toLocaleString", "toString", "valueOf", "__proto__",
   "__defineGetter__", "__defineSetter__", "__lookupGetter__", "__lookupSetter__"]

/-- One object entry of `window.SUPABASE_CFG.registrationPairs`; a property the
object lacks is `none`. -/
structure RegistrationPair where
  registration_url : Option String
  thankyou_url : Option String
  deriving DecidableEq, Repr

/-- The object `window.SUPABASE_CFG`, as far as the script reads it.  An entry
of the array `registrationPairs` is an object (`some`) or `null` (`none`). -/
structure SupabaseCfg where
  thankYouUrl : Option String
  registrationPairs : Option (List (Option RegistrationPair))
  deriving DecidableEq, Repr

/-- What the script reads from the browser: `window.location` (`origin`,
`href`, `pathname`, `hash`), the query string as `URLSearchParams` lists it,
`window.SUPABASE_CFG`, the constructor `new URL(url, base)` (`none` when it
throws; the same parser resolves a value assigned to `location.href`), the
date parser behind `new Date(string)` (milliseconds since the epoch, `none`
for an invalid date) and the text `String(Object.prototype[key])` of an
inherited member. -/
structure Browser where
  origin : String
  href : String
  pathname : String
  searchParams : List (String × String)
  hash : String
  SUPABASE_CFG : Option SupabaseCfg
  newURL : String → String → Option WebURL.URLRecord
  dateParse : String → Option Int
  inheritedText : String → String

/-- JavaScript truthiness of a value that is a string, `null` or `undefined`. -/
def truthy : Option String → Bool
  | some s => s != ""
  | none => false

/-- The method `String.prototype.startsWith`. -/
def startsWith (s p : String) : Bool := p.data.isPrefixOf s.data

/-- The method `String.prototype.includes`. -/
def includes (s p : String) : Bool := decide (p.data <:+: s.data)

/-- The call `s.substring(0, n)`, for a string of characters of the Basic
Multilingual Plane (an access token is ASCII), where code points and UTF-16
code units coincide. -/
def substring0 (s : String) (n : Nat) : String := String.mk (s.data.take n)

/-- The method `URLSearchParams.prototype.get`: the value of the first
parameter of that name, `none` (`null`) when there is none. -/
def paramsGet (b : Browser) (name : String) : Option String :=
  b.searchParams.lookup name

/-- The object `AUTH_CONFIG.thankYouPages`: its `default` property and its
other own properties (the legacy path-keyed mapping). -/
structure ThankYouPages where
  default : String
  entries : List (String × String)
  deriving DecidableEq, Repr

/-- Property read `thankYouPages[key]` on the plain object: an own property
first, then the prototype chain; `none` is `undefined`. -/
def ThankYouPages.get (t : ThankYouPages) (key : String) : Option JSValue :=
  if key = "default" then some (JSValue.str t.default)
  else
    match t.entries.lookup key with
    | some v => some (JSValue.str v)
    | none => if key ∈ objectPrototypeKeys then some (JSValue.inherited key) else none

structure AuthConfig where
  thankYouPages : ThankYouPages
  defaultRedirect : String
  newUserThreshold : Int
  deriving DecidableEq, Repr

/-- The constant `AUTH_CONFIG` as `initAuthForm` builds it. -/
def AUTH_CONFIG (b : Browser) : AuthConfig :=
  { thankYouPages :=
      { default :=
          match b.SUPABASE_CFG.bind (fun c => c.thankYouUrl) with
          | some u => if u != "" then u else "/registr/"
          | none => "/registr/"
        entries := [] }
    defaultRedirect := "/"
    newUserThreshold := 86400000 }

/-! ## Redirect resolver -/

/-- Source: `isSafeRedirect(url)`. -/
def isSafeRedirect (b : Browser) (url : String) : Bool :=
  if url = "" then false
  else if startsWith url "/" then true
  else
    match b.newURL url b.origin with
    | some urlObj => urlObj.origin == b.origin
    | none => false

/-- Source: `getReturnUrl()`; `ORIGIN_PAGE` is the constant computed at page
load. -/
def getReturnUrl (b : Browser) (cfg : AuthConfig) (ORIGIN_PAGE : String) : String :=
  if ORIGIN_PAGE = b.pathname then cfg.defaultRedirect
  else if !isSafeRedirect b ORIGIN_PAGE then cfg.defaultRedirect
  else ORIGIN_PAGE

/-- The call `pairs.find(p => p.registration_url === ORIGIN_PAGE)`: the first
matching entry, `undefined` (`none`) when no entry matches; reading
`registration_url` of a `null` entry throws. -/
def findIn (ORIGIN_PAGE : String) :
    List (Option RegistrationPair) → Completion (Option RegistrationPair)
  | [] => Completion.normal none
  | none :: _ => Completion.throw
  | some p :: rest =>
    if p.registration_url == some ORIGIN_PAGE then Completion.normal (some p)
    else findIn ORIGIN_PAGE rest

/-- The local constant `pair` of `getThankYouPage`: the first entry of
`window.SUPABASE_CFG.registrationPairs` whose `registration_url` is
`ORIGIN_PAGE`; `none` when there is no such list or no such entry. -/
def findPair (b : Browser) (ORIGIN_PAGE : String) : Completion (Option RegistrationPair) :=
  match b.SUPABASE_CFG.bind (fun c => c.registrationPairs) with
  | some pairs => findIn ORIGIN_PAGE pairs
  | none => Completion.normal none

/-- Source: `getThankYouPage()`.  Each `if (value)` of the source is a
truthiness test; a truthy string is non-empty, and `getD ""` then returns
it. -/
def getThankYouPage (b : Browser) (cfg : AuthConfig) (ORIGIN_PAGE : String) :
    Completion JSValue :=
  let customPage := paramsGet b "thank_you"
  if truthy customPage then
    if !isSafeRedirect b (customPage.getD "") then
      Completion.normal (JSValue.str cfg.thankYouPages.default)
    else Completion.normal (JSValue.str (customPage.getD ""))
  else
    match findPair b ORIGIN_PAGE with
    | Completion.throw => Completion.throw
    | Completion.normal pair =>
      let pairUrl := pair.bind (fun q => q.thankyou_url)
      if truthy pairUrl then Completion.normal (JSValue.str (pairUrl.getD ""))
      else
        match cfg.thankYouPages.get ORIGIN_PAGE with
        | some v =>
          if v.truthy then Completion.normal v
          else Completion.normal (JSValue.str cfg.thankYouPages.default)
        | none => Completion.normal (JSValue.str cfg.thankYouPages.default)

/-! ## New-user classifier -/

structure User where
  created_at : Option String
  deriving DecidableEq, Repr

structure Session where
  access_token : String
  user : Option User
  deriving DecidableEq, Repr

/-- Source: `isNewUser(user)`, with `now` the value of `new Date()`. -/
def isNewUser (b : Browser) (cfg : AuthConfig) (now : Int) (user : Option User) : Bool :=
  match user with
  | none => false
  | some u =>
    if !truthy u.created_at then false
    else
      match (u.created_at.bind b.dateParse) with
      | some createdAt => decide (now - createdAt < cfg.newUserThreshold)
      | none => false

/-! ## Persisted store and tab state -/

/-- The origin's `localStorage`: a list of key/value pairs. -/
abbrev Storage := List (String × String)

def Storage.getItem (st : Storage) (key : String) : Option String := st.lookup key

def Storage.removeItem (st : Storage) (key : String) : Storage :=
  st.filter (fun kv => kv.1 != key)

def Storage.setItem (st : Storage) (key value : String) : Storage :=
  st.removeItem key ++ [(key, value)]

/-- A `handleAuthChange` invocation suspended at `await fetch(...)`, with the
local constants it resumes with. -/
structure Pending where
  tokenKey : String
  processedTokenKey : String
  user : Option User
  accessToken : String
  deriving DecidableEq, Repr

/-- Observable actions of the handler, in the order they happen: the POST to
the callback endpoint, the catch block of the invocation that handles
`tokenKey`, and an assignment to `window.location.href` that the browser
accepts, which starts the navigation. -/
inductive Effect where
  | backendCall (accessToken : String)
  | authError (tokenKey : String)
  | navigate (target : JSValue)
  deriving DecidableEq, Repr

/-- The mutable state one tab's script works on: the variables `isRedirecting`,
`processingTokens` and `userTriggeredAuth`, the shared `localStorage`, the
suspended invocations and the trace of actions so far. -/
structure Tab where
  isRedirecting : Bool
  processingTokens : List String
  userTriggeredAuth : Bool
  localStorage : Storage
  pending : List Pending
  effects : List Effect
  deriving DecidableEq, Repr

/-- The call `Set.prototype.add`. -/
def setAdd (s : List String) (k : String) : List String :=
  if s.contains k then s else s ++ [k]

/-- The call `Set.prototype.delete`. -/
def setDelete (s : List String) (k : String) : List String :=
  s.filter (fun x => x != k)

/-- Source: the IIFE `cleanupOldTokens`. -/
def cleanupOldTokens (st : Storage) : Storage :=
  st.filter (fun kv => !(startsWith kv.1 "sb_processed_" && kv.2 == "true"))

/-- The constant `hasMagicLinkToken`. -/
def hasMagicLinkToken (b : Browser) : Bool := includes b.hash "access_token="

/-- State of a tab when the script has run its top level on a page load with
the given stored data: stale markers cleaned, flags initialised. -/
def pageLoad (st : Storage) : Tab :=
  { isRedirecting := false
    processingTokens := []
    userTriggeredAuth := (cleanupOldTokens st).getItem "sb_auth_triggered" == some "true"
    localStorage := cleanupOldTokens st
    pending := []
    effects := [] }

/-! ## Auth event handler -/

/-- The local constant `tokenKey` of `handleAuthChange`. -/
def tokenKey (sess : Session) : String := substring0 sess.access_token 20

/-- The local constant `processedTokenKey` of `handleAuthChange`. -/
def processedTokenKey (sess : Session) : String := "sb_processed_" ++ tokenKey sess

/-- Source: `handleAuthChange(event, session)` from its entry to its first
suspension: either it returns, or it has issued the backend call and waits at
`await fetch(...)`. -/
def handleAuthChange (b : Browser) (s : Tab) (event : String) (session : Option Session) : Tab :=
  if s.isRedirecting then s
  else
    let shouldRedirect := s.userTriggeredAuth || hasMagicLinkToken b
    match session with
    | none => s
    | some sess =>
      if event = "SIGNED_IN" ∧ shouldRedirect = true then
        if s.processingTokens.contains (tokenKey sess) then s
        else
          let s1 := { s with processingTokens := setAdd s.processingTokens (tokenKey sess),
                             isRedirecting := true }
          if truthy (s1.localStorage.getItem (processedTokenKey sess)) then
            { s1 with processingTokens := setDelete s1.processingTokens (tokenKey sess),
                      isRedirecting := false }
          else
            { s1 with
              localStorage := s1.localStorage.setItem (processedTokenKey sess) "processing"
              pending := s1.pending ++ [{ tokenKey := tokenKey sess,
                                          processedTokenKey := processedTokenKey sess,
                                          user := sess.user, accessToken := sess.access_token }]
              effects := s1.effects ++ [Effect.backendCall sess.access_token] }
      else s

/-- The string the setter of `location.href` receives for an assigned value. -/
def hrefString (b : Browser) : JSValue → String
  | JSValue.str s => s
  | JSValue.inherited key => b.inheritedText key

/-- Source: the `catch` block of `handleAuthChange`, run on the tab `s` by the
invocation `p`. -/
def catchBlock (s : Tab) (p : Pending) : Tab :=
  { s with
    processingTokens := setDelete s.processingTokens p.tokenKey
    localStorage := s.localStorage.removeItem p.processedTokenKey
    isRedirecting := false
    effects := s.effects ++ [Effect.authError p.tokenKey] }

/-- Source: the rest of `handleAuthChange` once the backend call has settled.
`ok` is true when `fetch` and `json()` resolved and `wpResponse.ok` holds,
false when one of them threw, which runs the `catch` block.  With `ok` the
rest of the `try` block runs: the marker is set to `"true"`, the destination
is computed, the trigger flag is removed and the destination is assigned to
`window.location.href`.  That assignment is recorded as `navigate`; when the
browser cannot resolve the assigned value against the page URL the setter
throws, and when `getThankYouPage` throws the later statements do not run: in
both cases the `catch` block runs on the state reached so far.  The
`localStorage` calls are taken to complete. -/
def resumeAuthChange (b : Browser) (cfg : AuthConfig) (ORIGIN_PAGE : String)
    (s : Tab) (p : Pending) (ok : Bool) (now : Int) : Tab :=
  if ok then
    let s1 := { s with localStorage := s.localStorage.setItem p.processedTokenKey "true" }
    let redirectUrl : Completion JSValue :=
      if isNewUser b cfg now p.user then getThankYouPage b cfg ORIGIN_PAGE
      else Completion.normal (JSValue.str (getReturnUrl b cfg ORIGIN_PAGE))
    match redirectUrl with
    | Completion.throw => catchBlock s1 p
    | Completion.normal target =>
      let s2 := { s1 with localStorage := s1.localStorage.removeItem "sb_auth_triggered" }
      if (b.newURL (hrefString b target) b.href).isSome then
        { s2 with effects := s2.effects ++ [Effect.navigate target] }
      else catchBlock s2 p
  else catchBlock s p

/-- What can happen to a tab between page load and unload: the identity
provider delivers an event, the `i`-th suspended backend call settles (at time
`now`), the user starts a sign-in (email submit, Google or Facebook button),
or another tab of the origin writes to or deletes from `localStorage`. -/
inductive Input where
  | authEvent (event : String) (session : Option Session)
  | backendResult (i : Nat) (ok : Bool) (now : Int)
  | userTrigger
  | storageSet (key value : String)
  | storageRemove (key : String)
  deriving DecidableEq, Repr

/-- One step of the tab. -/
def step (b : Browser) (cfg : AuthConfig) (ORIGIN_PAGE : String) (s : Tab) : Input → Tab
  | .authEvent event session => handleAuthChange b s event session
  | .backendResult i ok now =>
    match s.pending.get? i with
    | none => s
    | some p => resumeAuthChange b cfg ORIGIN_PAGE { s with pending := s.pending.eraseIdx i } p ok now
  | .userTrigger =>
    { s with userTriggeredAuth := true
             localStorage := s.localStorage.setItem "sb_auth_triggered" "true" }
  | .storageSet key value => { s with localStorage := s.localStorage.setItem key value }
  | .storageRemove key => { s with localStorage := s.localStorage.removeItem key }

/-- The tab after a sequence of inputs. -/
def run (b : Browser) (cfg : AuthConfig) (ORIGIN_PAGE : String) (s : Tab) (inputs : List Input) : Tab :=
  inputs.foldl (step b cfg ORIGIN_PAGE) s

/-- A browser on the page `https://example.com/login` whose `URL` constructor
is the parser model, whose date parser knows one timestamp,
2024-01-01T00:00:00.000Z, and which prints a native function as
`function name() { [native code] }`. -/
def exampleBrowser : Browser :=
  { origin := "https://example.com"
    href := "https://example.com/login"
    pathname := "/login"
    searchParams := []
    hash := ""
    SUPABASE_CFG := none
    newURL := WebURL.newURL
    dateParse := fun s => if s = "2024-01-01T00:00:00.000Z" then some 1704067200000 else none
    inheritedText := fun key =>
      if key = "__proto__" then "[object Object]"
      else if key = "constructor" then "function Object() \x7b [native code] \x7d"
      else "function " ++ key ++ "() \x7b [native code] \x7d" }

/-- Origin of the page a browser ends on when the script assigns `target` to
`window.location.href`: the target is resolved against the current page URL;
`none` when it does not resolve. -/
def navigationOrigin (b : Browser) (target : String) : Option String :=
  (b.newURL target b.href).map (fun u => u.origin)

/-- A browser on `https://example.com/login?thank_you=` (the parameter is
present with an empty value) whose settings pair the registration page
`/signup` with the thank-you page `/welcome`. -/
def emptyParamBrowser : Browser :=
  { exampleBrowser with
    searchParams := [("thank_you", "")]
    SUPABASE_CFG := some
      { thankYouUrl := none
        registrationPairs :=
          some [some { registration_url := some "/signup", thankyou_url := some "/welcome" }] } }

/-- A browser on `https://example.com/login` whose settings name a thank-you
page on another site. -/
def foreignThankYouBrowser : Browser :=
  { exampleBrowser with
    SUPABASE_CFG := some { thankYouUrl := some "https://evil.example/welcome", registrationPairs := none } }

/-- A browser on `https://example.com/login?thank_you=//`. -/
def unresolvableThankYouBrowser : Browser :=
  { exampleBrowser with searchParams := [("thank_you", "//")] }

/-- A browser on `https://example.com/login?redirect_to=constructor`, for
which the script computes the OriginPage `constructor`. -/
def constructorOriginBrowser : Browser :=
  { exampleBrowser with searchParams := [("redirect_to", "constructor")] }

/-- A session of a user created at 2024-01-01T00:00:00.000Z. -/
def exampleSession : Session :=
  { access_token := "eyJhbGciOiJIUzI1NiIsInR5cCI6IkpXVCJ9.payload.signature"
    user := some { created_at := some "2024-01-01T00:00:00.000Z" } }

/-- Scenario: the event `SIGNED_IN` with session `sess` is delivered to the tab
in state `s`, and the backend call that delivery issues settles with outcome
`ok` at time `now`. -/
def signInThenBackend (b : Browser) (cfg : AuthConfig) (ORIGIN_PAGE : String)
    (s : Tab) (sess : Session) (ok : Bool) (now : Int) : Tab :=
  step b cfg ORIGIN_PAGE (handleAuthChange b s "SIGNED_IN" (some sess))
    (Input.backendResult s.pending.length ok now)

/-! ## Predicates on the trace of actions -/

/-- The token key of the backend call that is unsettled at the end of a trace,
given the one unsettled at its start: a backend call opens its token key, the
catch block for that key closes it. -/
def openAfter : Option String → List Effect → Option String
  | o, [] => o
  | _, Effect.backendCall t :: r => openAfter (some (substring0 t 20)) r
  | o, Effect.authError k :: r => openAfter (if o = some k then none else o) r
  | o, Effect.navigate _ :: r => openAfter o r

/-- No backend call of the trace is issued while another one is unsettled. -/
def gatedFrom : Option String → List Effect → Bool
  | _, [] => true
  | o, Effect.backendCall t :: r => o.isNone && gatedFrom (some (substring0 t 20)) r
  | o, Effect.authError k :: r => gatedFrom (if o = some k then none else o) r
  | o, Effect.navigate _ :: r => gatedFrom o r

def isNavigate : Effect → Bool
  | Effect.navigate _ => true
  | _ => false

/-- Number of navigations in a trace. -/
def navCount (l : List Effect) : Nat := l.countP isNavigate

/-- The three phases of a tab's handler between page load and unload: no call
outstanding; one call outstanding (for the token key that is open in the
trace); navigation initiated. -/
def Phase (s : Tab) : Prop :=
  (s.isRedirecting = false ∧ s.pending = [] ∧ navCount s.effects = 0 ∧
    gatedFrom none s.effects = true ∧ openAfter none s.effects = none) ∨
  (s.isRedirecting = true ∧ (∃ p, s.pending = [p] ∧ openAfter none s.effects = some p.tokenKey) ∧
    navCount s.effects = 0 ∧ gatedFrom none s.effects = true) ∨
  (s.isRedirecting = true ∧ s.pending = [] ∧ navCount s.effects = 1 ∧
    gatedFrom none s.effects = true)

/-! ## Properties of the redirect resolver -/

theorem startsWith_ne_empty {u p : String} (h : startsWith u p = true) (hp : p ≠ "") :
    u ≠ "" := by
  intro hu
  subst hu
  apply hp
  have h1 : p.data = [] := by
    have h2 : p.data.isPrefixOf ([] : List Char) = true := h
    cases hd : p.data with
    | nil => rfl
    | cons a l => rw [hd] at h2; simp [List.isPrefixOf] at h2
  exact String.ext h1

theorem isSafeRedirect_of_slash (b : Browser) {u : String} (h : startsWith u "/" = true) :
    isSafeRedirect b u = true := by
  have hne : u ≠ "" := startsWith_ne_empty h (by decide)
  simp [isSafeRedirect, hne, h]

theorem isSafeRedirect_iff (b : Browser) (u : String) :
    isSafeRedirect b u = true ↔
      u ≠ "" ∧ (startsWith u "/" = true ∨
        ∃ urlObj, b.newURL u b.origin = some urlObj ∧ urlObj.origin = b.origin) := by
  unfold isSafeRedirect
  by_cases hu : u = ""
  · simp [hu]
  · by_cases hs : startsWith u "/" = true
    · simp [hu, hs]
    · cases hp : b.newURL u b.origin with
      | none => simp [hu, hs]
      | some urlObj => simp [hu, hs]

/-- C1 counterexample: on the page `https://example.com/login` the string
`"not a url"` does not start with `/` and is no URL on its own, yet
`isSafeRedirect` accepts it, because `new URL` resolves it against the page
origin as a relative reference. -/
theorem C1_not_a_url_is_accepted :
    isSafeRedirect exampleBrowser "not a url" = true ∧
      startsWith "not a url" "/" = false ∧
      WebURL.parse "not a url" none = none ∧
      (exampleBrowser.newURL "not a url" exampleBrowser.origin).map (fun u => u.origin)
        = some "https://example.com" := by
  decide

/-- C1 (amended): `isSafeRedirect(u)` is true exactly when `u` is non-empty
and either starts with `/` or, resolved by `new URL(u, origin)` against the
page origin, gives a URL whose origin is the page origin; a `u` not starting
with `/` for which `new URL` throws gives false.  It is true for `"/a/b"` in
every browser and, on `https://example.com`, false for
`"https://evil.example/x"`, true for `"https://example.com/x"` and true for
`"not a url"`. -/
theorem C1_isSafeRedirect_characterisation :
    (∀ (b : Browser) (u : String),
      (isSafeRedirect b u = true ↔
        u ≠ "" ∧ (startsWith u "/" = true ∨
          ∃ urlObj, b.newURL u b.origin = some urlObj ∧ urlObj.origin = b.origin)) ∧
      (startsWith u "/" = false → b.newURL u b.origin = none → isSafeRedirect b u = false)) ∧
    (∀ b : Browser, isSafeRedirect b "/a/b" = true) ∧
    isSafeRedirect exampleBrowser "https://evil.example/x" = false ∧
    isSafeRedirect exampleBrowser "https://example.com/x" = true ∧
    isSafeRedirect exampleBrowser "not a url" = true := by
  refine ⟨fun b u => ⟨isSafeRedirect_iff b u, ?_⟩, ?_, by decide, by decide, by decide⟩
  · intro hs hp
    simp [isSafeRedirect, hs, hp]
  · intro b
    exact isSafeRedirect_of_slash b (by decide)

/-- C2 (evaluation at the failing input): on the page
`https://example.com/login`, `isSafeRedirect` accepts the scheme-relative
string `"//evil.example/x"`, and assigning that string to
`window.location.href` leads to the origin `https://evil.example`, which is
not the page's origin. -/
theorem C2_scheme_relative_accepted :
    isSafeRedirect exampleBrowser "//evil.example/x" = true ∧
      navigationOrigin exampleBrowser "//evil.example/x" = some "https://evil.example" ∧
      exampleBrowser.origin = "https://example.com" ∧
      navigationOrigin exampleBrowser "//evil.example/x" ≠ some exampleBrowser.origin := by
  decide

/-- C9: `getReturnUrl()` returns the default redirect when OriginPage equals
the current page path, whether or not OriginPage is a safe redirect;
otherwise it returns OriginPage when `isSafeRedirect` accepts it and the
default redirect when it does not. -/
theorem C9_getReturnUrl_cases (b : Browser) (cfg : AuthConfig) (p : String) :
    (p = b.pathname → getReturnUrl b cfg p = cfg.defaultRedirect) ∧
    (p ≠ b.pathname → isSafeRedirect b p = true → getReturnUrl b cfg p = p) ∧
    (p ≠ b.pathname → isSafeRedirect b p = false → getReturnUrl b cfg p = cfg.defaultRedirect) := by
  refine ⟨?_, ?_, ?_⟩
  · intro h
    simp [getReturnUrl, h]
  · intro h hs
    simp [getReturnUrl, h, hs]
  · intro h hs
    simp [getReturnUrl, h, hs]

theorem truthy_some {v : String} (h : v ≠ "") : truthy (some v) = true := by
  simp [truthy, h]

theorem truthy_absent {o : Option String} (h : o = none ∨ o = some "") : truthy o = false := by
  rcases h with h | h <;> simp [h, truthy]

theorem getThankYouPage_of_param (b : Browser) (cfg : AuthConfig) (O cp : String)
    (h : paramsGet b "thank_you" = some cp) (hne : cp ≠ "") :
    getThankYouPage b cfg O =
      Completion.normal (JSValue.str
        (if isSafeRedirect b cp = true then cp else cfg.thankYouPages.default)) := by
  unfold getThankYouPage
  simp only [h, truthy_some hne, Option.getD_some, if_true]
  by_cases hs : isSafeRedirect b cp = true
  · simp [hs]
  · simp [hs]

theorem findIn_of_first (O : String) (pre : List RegistrationPair) (pair : RegistrationPair)
    (post : List (Option RegistrationPair))
    (hpre : ∀ q ∈ pre, q.registration_url ≠ some O) (hp : pair.registration_url = some O) :
    findIn O (pre.map some ++ some pair :: post) = Completion.normal (some pair) := by
  induction pre with
  | nil => simp [findIn, hp]
  | cons q l ih =>
    have hq : q.registration_url ≠ some O := hpre q (List.mem_cons_self _ _)
    have hl : ∀ r ∈ l, r.registration_url ≠ some O :=
      fun r hr => hpre r (List.mem_cons_of_mem _ hr)
    simp [findIn, hq, ih hl]

theorem findIn_of_no_match (O : String) (qs : List RegistrationPair)
    (h : ∀ q ∈ qs, q.registration_url ≠ some O) :
    findIn O (qs.map some) = Completion.normal none := by
  induction qs with
  | nil => rfl
  | cons q l ih =>
    have hq : q.registration_url ≠ some O := h q (List.mem_cons_self _ _)
    have hl : ∀ r ∈ l, r.registration_url ≠ some O :=
      fun r hr => h r (List.mem_cons_of_mem _ hr)
    simp [findIn, hq, ih hl]

theorem findIn_mem (O : String) (l : List (Option RegistrationPair)) (pair : RegistrationPair)
    (h : findIn O l = Completion.normal (some pair)) : some pair ∈ l := by
  induction l with
  | nil => simp [findIn] at h
  | cons e l ih =>
    cases e with
    | none => simp [findIn] at h
    | some q =>
      by_cases hq : q.registration_url = some O
      · simp [findIn, hq] at h
        subst h
        exact List.mem_cons_self _ _
      · simp [findIn, hq] at h
        exact List.mem_cons_of_mem _ (ih h)

theorem findPair_eq (b : Browser) (O : String) (pairs : List (Option RegistrationPair))
    (hp : b.SUPABASE_CFG.bind (fun c => c.registrationPairs) = some pairs) :
    findPair b O = findIn O pairs := by
  simp [findPair, hp]

/-- The value of `getThankYouPage()` when the `thank_you` parameter is absent
or empty and the search for the pair completes. -/
theorem getThankYouPage_of_findPair (b : Browser) (cfg : AuthConfig) (O : String)
    (habs : paramsGet b "thank_you" = none ∨ paramsGet b "thank_you" = some "")
    (r : Option RegistrationPair) (hf : findPair b O = Completion.normal r) :
    getThankYouPage b cfg O =
      if truthy (r.bind (fun q => q.thankyou_url)) = true then
        Completion.normal (JSValue.str ((r.bind (fun q => q.thankyou_url)).getD ""))
      else
        match cfg.thankYouPages.get O with
        | some v =>
          if v.truthy = true then Completion.normal v
          else Completion.normal (JSValue.str cfg.thankYouPages.default)
        | none => Completion.normal (JSValue.str cfg.thankYouPages.default) := by
  unfold getThankYouPage
  simp only [truthy_absent habs, hf]
  simp

theorem getThankYouPage_of_throw (b : Browser) (cfg : AuthConfig) (O : String)
    (habs : paramsGet b "thank_you" = none ∨ paramsGet b "thank_you" = some "")
    (hf : findPair b O = Completion.throw) :
    getThankYouPage b cfg O = Completion.throw := by
  unfold getThankYouPage
  simp only [truthy_absent habs, hf]
  simp

/-- C10 counterexample: on `https://example.com/login?thank_you=` the
`thank_you` parameter is present (its value is the empty string, which
`isSafeRedirect` rejects), yet `getThankYouPage()` for OriginPage `/signup`
is not the global default `/registr/` but the paired page `/welcome`. -/
theorem C10_empty_param_falls_through :
    paramsGet emptyParamBrowser "thank_you" = some "" ∧
      isSafeRedirect emptyParamBrowser "" = false ∧
      (AUTH_CONFIG emptyParamBrowser).thankYouPages.default = "/registr/" ∧
      getThankYouPage emptyParamBrowser (AUTH_CONFIG emptyParamBrowser) "/signup"
        = Completion.normal (JSValue.str "/welcome") := by
  decide

/-- C10 (amended): `getThankYouPage()` resolves in strict priority order, each
stage applying only when its value is a non-empty string.  (1) A `thank_you`
query parameter with a non-empty value wins: it is returned if
`isSafeRedirect` accepts it and replaced by the global default otherwise.
(2) With the parameter absent or empty, the non-empty `thankyou_url` of the
first pair of the server-supplied list whose `registration_url` equals
OriginPage is returned, the entries before it being pairs that do not match.
(3) With no such value (no list, a list of pairs none of which matches, or a
first matching pair without a non-empty `thankyou_url`), the non-empty string
that the legacy map holds under OriginPage is returned.  (4) When the legacy
map yields nothing or an empty string for OriginPage, the global default is
returned.  What is returned when the lookup of stage (3) yields a member
inherited from `Object.prototype`, or when the list holds a `null` entry that
the search reaches, is not part of this statement. -/
theorem C10_getThankYouPage_priority (b : Browser) (cfg : AuthConfig) (O : String) :
    (∀ cp, paramsGet b "thank_you" = some cp → cp ≠ "" →
      (isSafeRedirect b cp = true →
        getThankYouPage b cfg O = Completion.normal (JSValue.str cp)) ∧
      (isSafeRedirect b cp = false →
        getThankYouPage b cfg O = Completion.normal (JSValue.str cfg.thankYouPages.default))) ∧
    ((paramsGet b "thank_you" = none ∨ paramsGet b "thank_you" = some "") →
      (∀ (pairs : List (Option RegistrationPair)) (pre : List RegistrationPair)
          (pair : RegistrationPair) (post : List (Option RegistrationPair)) (t : String),
        b.SUPABASE_CFG.bind (fun c => c.registrationPairs) = some pairs →
        pairs = pre.map some ++ some pair :: post →
        (∀ q ∈ pre, q.registration_url ≠ some O) →
        pair.registration_url = some O →
        pair.thankyou_url = some t → t ≠ "" →
        getThankYouPage b cfg O = Completion.normal (JSValue.str t)) ∧
      ((b.SUPABASE_CFG.bind (fun c => c.registrationPairs) = none ∨
        ∃ pairs, b.SUPABASE_CFG.bind (fun c => c.registrationPairs) = some pairs ∧
          ((∃ qs : List RegistrationPair, pairs = qs.map some ∧
              ∀ q ∈ qs, q.registration_url ≠ some O) ∨
           (∃ (pre : List RegistrationPair) (pair : RegistrationPair)
              (post : List (Option RegistrationPair)),
              pairs = pre.map some ++ some pair :: post ∧
              (∀ q ∈ pre, q.registration_url ≠ some O) ∧
              pair.registration_url = some O ∧ truthy pair.thankyou_url = false))) →
        (∀ v, cfg.thankYouPages.get O = some (JSValue.str v) → v ≠ "" →
          getThankYouPage b cfg O = Completion.normal (JSValue.str v)) ∧
        ((cfg.thankYouPages.get O = none ∨ cfg.thankYouPages.get O = some (JSValue.str "")) →
          getThankYouPage b cfg O
            = Completion.normal (JSValue.str cfg.thankYouPages.default)))) := by
  refine ⟨?_, ?_⟩
  · intro cp h hne
    rw [getThankYouPage_of_param b cfg O cp h hne]
    constructor
    · intro hs; simp [hs]
    · intro hs; simp [hs]
  · intro habs
    refine ⟨?_, ?_⟩
    · intro pairs pre pair post t hp hl hpre hm ht hne
      have hf : findPair b O = Completion.normal (some pair) := by
        rw [findPair_eq b O pairs hp, hl]
        exact findIn_of_first O pre pair post hpre hm
      rw [getThankYouPage_of_findPair b cfg O habs (some pair) hf]
      simp [ht, truthy_some hne]
    · intro hno
      have hfind : ∃ r, findPair b O = Completion.normal r ∧
          truthy (r.bind (fun q => q.thankyou_url)) = false := by
        rcases hno with hp | ⟨pairs, hp, hq | hq⟩
        · exact ⟨none, by simp [findPair, hp], rfl⟩
        · obtain ⟨qs, hl, hqs⟩ := hq
          refine ⟨none, ?_, rfl⟩
          rw [findPair_eq b O pairs hp, hl]
          exact findIn_of_no_match O qs hqs
        · obtain ⟨pre, pair, post, hl, hpre, hm, ht⟩ := hq
          refine ⟨some pair, ?_, by simpa using ht⟩
          rw [findPair_eq b O pairs hp, hl]
          exact findIn_of_first O pre pair post hpre hm
      obtain ⟨r, hf, hr⟩ := hfind
      rw [getThankYouPage_of_findPair b cfg O habs r hf]
      refine ⟨?_, ?_⟩
      · intro v hv hne
        simp [hr, hv, JSValue.truthy, hne]
      · intro hv
        rcases hv with hv | hv
        · simp [hr, hv]
        · simp [hr, hv, JSValue.truthy]

theorem getReturnUrl_safe (b : Browser) (cfg : AuthConfig) (O : String)
    (hd : isSafeRedirect b cfg.defaultRedirect = true) :
    isSafeRedirect b (getReturnUrl b cfg O) = true := by
  unfold getReturnUrl
  by_cases h1 : O = b.pathname
  · simp [h1, hd]
  · by_cases h2 : isSafeRedirect b O = true
    · simp [h1, h2]
    · simp [h1, h2, hd]

theorem get_not_inherited (t : ThankYouPages) (O k : String) (h : O ∉ objectPrototypeKeys) :
    t.get O ≠ some (JSValue.inherited k) := by
  unfold ThankYouPages.get
  by_cases hd : O = "default"
  · simp [hd]
  · cases hl : t.entries.lookup O with
    | none => simp [hd, hl, h]
    | some v => simp [hd, hl]

theorem getThankYouPage_safe (b : Browser) (cfg : AuthConfig) (O : String)
    (hty : isSafeRedirect b cfg.thankYouPages.default = true)
    (hpairs : ∀ pairs pair t, b.SUPABASE_CFG.bind (fun c => c.registrationPairs) = some pairs →
      some pair ∈ pairs → pair.thankyou_url = some t → t ≠ "" → isSafeRedirect b t = true)
    (hlegacy : ∀ k v, cfg.thankYouPages.get k = some (JSValue.str v) → v ≠ "" →
      isSafeRedirect b v = true)
    (hproto : O ∉ objectPrototypeKeys)
    (v : JSValue) (hv : getThankYouPage b cfg O = Completion.normal v) :
    ∃ t, v = JSValue.str t ∧ isSafeRedirect b t = true := by
  by_cases hq : ∃ cp, paramsGet b "thank_you" = some cp ∧ cp ≠ ""
  · obtain ⟨cp, hq, hne⟩ := hq
    rw [getThankYouPage_of_param b cfg O cp hq hne] at hv
    simp only [Completion.normal.injEq] at hv
    subst hv
    refine ⟨_, rfl, ?_⟩
    by_cases hs : isSafeRedirect b cp = true
    · simp [hs]
    · simp [hs, hty]
  · have habs : paramsGet b "thank_you" = none ∨ paramsGet b "thank_you" = some "" := by
      cases hp : paramsGet b "thank_you" with
      | none => exact Or.inl rfl
      | some cp =>
        right
        by_cases hne : cp = ""
        · rw [hne]
        · exact absurd ⟨cp, hp, hne⟩ hq
    cases hf : findPair b O with
    | throw =>
      rw [getThankYouPage_of_throw b cfg O habs hf] at hv
      cases hv
    | normal r =>
      rw [getThankYouPage_of_findPair b cfg O habs r hf] at hv
      by_cases hr : truthy (r.bind (fun q => q.thankyou_url)) = true
      · simp only [hr, if_true, Completion.normal.injEq] at hv
        subst hv
        refine ⟨_, rfl, ?_⟩
        cases r with
        | none => simp [truthy] at hr
        | some pair =>
          cases ht : pair.thankyou_url with
          | none => simp [ht, truthy] at hr
          | some t =>
            have hne : t ≠ "" := by simpa [ht, truthy] using hr
            cases hp : b.SUPABASE_CFG.bind (fun c => c.registrationPairs) with
            | none => simp [findPair, hp] at hf
            | some pairs =>
              rw [findPair_eq b O pairs hp] at hf
              simpa [ht] using hpairs pairs pair t hp (findIn_mem O pairs pair hf) ht hne
      · simp only [hr, Bool.false_eq_true, if_false] at hv
        cases hg : cfg.thankYouPages.get O with
        | none =>
          simp only [hg, Completion.normal.injEq] at hv
          subst hv
          exact ⟨_, rfl, hty⟩
        | some w =>
          cases w with
          | inherited k => exact absurd hg (get_not_inherited _ O k hproto)
          | str u =>
            by_cases hne : u = ""
            · simp only [hg, hne, JSValue.truthy, bne_self_eq_false, Bool.false_eq_true,
                if_false, Completion.normal.injEq] at hv
              subst hv
              exact ⟨_, rfl, hty⟩
            · have htr : (JSValue.str u).truthy = true := by simp [JSValue.truthy, hne]
              simp only [hg, htr, if_true, Completion.normal.injEq] at hv
              subst hv
              exact ⟨_, rfl, hlegacy O u hg hne⟩

/-- Every way `resumeAuthChange` can end: the `catch` block ran (on some state
of `localStorage`), or the response was a success, the destination was
computed and resolves, and the navigation was initiated. -/
theorem resumeAuthChange_cases (b : Browser) (cfg : AuthConfig) (O : String) (s : Tab)
    (p : Pending) (ok : Bool) (now : Int) :
    (∃ st, resumeAuthChange b cfg O s p ok now = catchBlock { s with localStorage := st } p) ∨
    (ok = true ∧ ∃ v,
      (if isNewUser b cfg now p.user = true then getThankYouPage b cfg O
        else Completion.normal (JSValue.str (getReturnUrl b cfg O))) = Completion.normal v ∧
      (b.newURL (hrefString b v) b.href).isSome = true ∧
      resumeAuthChange b cfg O s p ok now =
        { s with
          localStorage :=
            (s.localStorage.setItem p.processedTokenKey "true").removeItem "sb_auth_triggered"
          effects := s.effects ++ [Effect.navigate v] }) := by
  cases ok with
  | false => exact Or.inl ⟨s.localStorage, by simp [resumeAuthChange]⟩
  | true =>
    cases hr : (if isNewUser b cfg now p.user = true then getThankYouPage b cfg O
        else Completion.normal (JSValue.str (getReturnUrl b cfg O))) with
    | throw =>
      refine Or.inl ⟨s.localStorage.setItem p.processedTokenKey "true", ?_⟩
      simp only [resumeAuthChange, if_true, hr]
    | normal v =>
      by_cases hres : (b.newURL (hrefString b v) b.href).isSome = true
      · refine Or.inr ⟨rfl, v, rfl, hres, ?_⟩
        simp only [resumeAuthChange, if_true, hr, hres]
      · refine Or.inl ⟨(s.localStorage.setItem p.processedTokenKey "true").removeItem
          "sb_auth_triggered", ?_⟩
        simp only [resumeAuthChange, if_true, hr, hres]
        rfl

/-- With `?redirect_to=constructor`, no `thank_you` parameter and no pairs,
`getThankYouPage()` is the function `Object` that the legacy map inherits,
not the global default. -/
theorem getThankYouPage_inherited_member :
    getThankYouPage constructorOriginBrowser (AUTH_CONFIG constructorOriginBrowser) "constructor"
      = Completion.normal (JSValue.inherited "constructor") := by
  decide

/-- A `null` entry of the pairs list that the search reaches makes
`getThankYouPage()` throw. -/
theorem getThankYouPage_null_pair (b : Browser) (cfg : AuthConfig) (O : String)
    (rest : List (Option RegistrationPair))
    (habs : paramsGet b "thank_you" = none ∨ paramsGet b "thank_you" = some "")
    (hp : b.SUPABASE_CFG.bind (fun c => c.registrationPairs) = some (none :: rest)) :
    getThankYouPage b cfg O = Completion.throw := by
  apply getThankYouPage_of_throw b cfg O habs
  rw [findPair_eq b O _ hp]
  rfl

/-- C3 counterexample: with the settings' thank-you URL
`https://evil.example/welcome`, a page load with the trigger flag set, a
`SIGNED_IN` event of a user created one second before the backend call
succeeds: the handler assigns `https://evil.example/welcome` to
`window.location.href`, a value `isSafeRedirect` rejects. -/
theorem C3_unvalidated_default_thank_you :
    (run foreignThankYouBrowser (AUTH_CONFIG foreignThankYouBrowser) "/signup"
        (pageLoad [("sb_auth_triggered", "true")])
        [Input.authEvent "SIGNED_IN" (some exampleSession),
         Input.backendResult 0 true 1704067201000]).effects
      = [Effect.backendCall exampleSession.access_token,
         Effect.navigate (JSValue.str "https://evil.example/welcome")] ∧
    getThankYouPage foreignThankYouBrowser (AUTH_CONFIG foreignThankYouBrowser) "/signup"
      = Completion.normal (JSValue.str "https://evil.example/welcome") ∧
    isSafeRedirect foreignThankYouBrowser "https://evil.example/welcome" = false := by
  decide

/-- C3 (amended): every value `handleAuthChange` assigns to
`window.location.href` after a backend success is a string that satisfies
`isSafeRedirect`, for every query string, provided the configured values do
(the default redirect, the default thank-you URL, every non-empty
`thankyou_url` of the registration pairs and every non-empty entry of the
legacy map) and OriginPage is not the name of a member that the legacy map
inherits from `Object.prototype`.  A value that comes from the `redirect_to`
or `thank_you` query parameter is checked by the code itself; configured
values are used as they are. -/
theorem C3_navigation_target_safe (b : Browser) (cfg : AuthConfig) (O : String)
    (s : Tab) (p : Pending) (ok : Bool) (now : Int)
    (hd : isSafeRedirect b cfg.defaultRedirect = true)
    (hty : isSafeRedirect b cfg.thankYouPages.default = true)
    (hpairs : ∀ pairs pair t, b.SUPABASE_CFG.bind (fun c => c.registrationPairs) = some pairs →
      some pair ∈ pairs → pair.thankyou_url = some t → t ≠ "" → isSafeRedirect b t = true)
    (hlegacy : ∀ k v, cfg.thankYouPages.get k = some (JSValue.str v) → v ≠ "" →
      isSafeRedirect b v = true)
    (hproto : O ∉ objectPrototypeKeys) :
    (∀ v, getThankYouPage b cfg O = Completion.normal v →
      ∃ t, v = JSValue.str t ∧ isSafeRedirect b t = true) ∧
    isSafeRedirect b (getReturnUrl b cfg O) = true ∧
    (∀ v, Effect.navigate v ∈ (resumeAuthChange b cfg O s p ok now).effects →
      Effect.navigate v ∈ s.effects ∨ ∃ t, v = JSValue.str t ∧ isSafeRedirect b t = true) := by
  have h1 := getThankYouPage_safe b cfg O hty hpairs hlegacy hproto
  have h2 := getReturnUrl_safe b cfg O hd
  refine ⟨h1, h2, ?_⟩
  intro v hv
  rcases resumeAuthChange_cases b cfg O s p ok now with ⟨st, hc⟩ | ⟨_, w, hw, _, hn⟩
  · rw [hc] at hv
    simp only [catchBlock, List.mem_append, List.mem_singleton] at hv
    rcases hv with hv | hv
    · exact Or.inl hv
    · cases hv
  · rw [hn] at hv
    simp only [List.mem_append, List.mem_singleton, Effect.navigate.injEq] at hv
    rcases hv with hv | hv
    · exact Or.inl hv
    · subst hv
      right
      by_cases hnew : isNewUser b cfg now p.user = true
      · simp only [hnew, if_true] at hw
        exact h1 v hw
      · simp only [hnew, Bool.false_eq_true, if_false, Completion.normal.injEq] at hw
        subst hw
        exact ⟨_, rfl, h2⟩

/-- C3 (amended), instance: on `https://example.com/login?thank_you=` with
the pair `/signup` to `/welcome` configured, the configured values are safe,
and the value assigned for a returning user from `/signup` is the safe string
`/signup`. -/
theorem C3_navigation_target_safe_witness :
    isSafeRedirect emptyParamBrowser (AUTH_CONFIG emptyParamBrowser).defaultRedirect = true ∧
    isSafeRedirect emptyParamBrowser (AUTH_CONFIG emptyParamBrowser).thankYouPages.default = true ∧
    "/signup" ∉ objectPrototypeKeys ∧
    (resumeAuthChange emptyParamBrowser (AUTH_CONFIG emptyParamBrowser) "/signup"
        (pageLoad []) ⟨"k", "sb_processed_k", none, "k"⟩ true 0).effects
      = [Effect.navigate (JSValue.str "/signup")] ∧
    (Effect.navigate (JSValue.str "/signup") ∈ (pageLoad []).effects ∨
      ∃ t, JSValue.str "/signup" = JSValue.str t ∧ isSafeRedirect emptyParamBrowser t = true) :=
  ⟨by decide, by decide, by decide, by decide,
    (C3_navigation_target_safe emptyParamBrowser (AUTH_CONFIG emptyParamBrowser) "/signup"
      (pageLoad []) ⟨"k", "sb_processed_k", none, "k"⟩ true 0 (by decide) (by decide)
      (by
        intro pairs pair t hp hmem ht _
        have hp2 : pairs =
            [some { registration_url := some "/signup", thankyou_url := some "/welcome" }] := by
          simpa [emptyParamBrowser, exampleBrowser] using hp.symm
        subst hp2
        simp at hmem
        subst hmem
        simp at ht
        subst ht
        decide)
      (by
        intro k v hv _
        unfold ThankYouPages.get at hv
        by_cases hk : k = "default"
        · simp [hk, AUTH_CONFIG, emptyParamBrowser, exampleBrowser] at hv
          subst hv
          decide
        · by_cases hk2 : k ∈ objectPrototypeKeys
          · simp [hk, hk2, AUTH_CONFIG] at hv
          · simp [hk, hk2, AUTH_CONFIG] at hv)
      (by decide)).2.2 (JSValue.str "/signup") (by decide)⟩

/-! ## Persisted store and in-flight set -/

theorem getItem_removeItem_self (st : Storage) (k : String) :
    (Storage.removeItem st k).getItem k = none := by
  induction st with
  | nil => rfl
  | cons kv st ih =>
    obtain ⟨a, v⟩ := kv
    by_cases h : a = k
    · simpa [Storage.removeItem, Storage.getItem, List.filter_cons, h] using ih
    · have h2 : (k == a) = false := by simpa using fun e => h e.symm
      simpa [Storage.removeItem, Storage.getItem, List.filter_cons, h, List.lookup_cons, h2] using ih

theorem getItem_removeItem_ne (st : Storage) {k k2 : String} (hne : k2 ≠ k) :
    (Storage.removeItem st k).getItem k2 = st.getItem k2 := by
  induction st with
  | nil => rfl
  | cons kv st ih =>
    obtain ⟨a, v⟩ := kv
    by_cases h : a = k
    · subst h
      have h2 : (k2 == a) = false := by simpa using hne
      simpa [Storage.removeItem, Storage.getItem, List.filter_cons, List.lookup_cons, h2] using ih
    · by_cases h3 : k2 = a
      · simp [Storage.removeItem, Storage.getItem, List.filter_cons, h, List.lookup_cons, h3]
      · have h2 : (k2 == a) = false := by simpa using h3
        simpa [Storage.removeItem, Storage.getItem, List.filter_cons, h, List.lookup_cons, h2] using ih

theorem lookup_append_of_none {st : Storage} {k : String} (h : st.lookup k = none)
    (l : Storage) : (st ++ l).lookup k = l.lookup k := by
  induction st with
  | nil => rfl
  | cons kv st ih =>
    obtain ⟨a, v⟩ := kv
    by_cases h2 : (k == a) = true
    · simp [List.lookup_cons, h2] at h
    · simp only [Bool.not_eq_true] at h2
      simp only [List.lookup_cons, h2] at h
      simpa [List.lookup_cons, h2] using ih h

theorem lookup_append_of_some {st : Storage} {k v : String} (h : st.lookup k = some v)
    (l : Storage) : (st ++ l).lookup k = some v := by
  induction st with
  | nil => simp at h
  | cons kv st ih =>
    obtain ⟨a, w⟩ := kv
    by_cases h2 : (k == a) = true
    · simpa [List.lookup_cons, h2] using h
    · simp only [Bool.not_eq_true] at h2
      simp only [List.lookup_cons, h2] at h
      simpa [List.lookup_cons, h2] using ih h

theorem getItem_setItem_self (st : Storage) (k v : String) :
    (Storage.setItem st k v).getItem k = some v := by
  have h := getItem_removeItem_self st k
  unfold Storage.setItem Storage.getItem at *
  rw [lookup_append_of_none h]
  simp [List.lookup_cons]

theorem getItem_setItem_ne (st : Storage) {k k2 : String} (v : String) (hne : k2 ≠ k) :
    (Storage.setItem st k v).getItem k2 = st.getItem k2 := by
  have h := getItem_removeItem_ne st hne
  unfold Storage.setItem
  unfold Storage.getItem at *
  cases hl : List.lookup k2 (Storage.removeItem st k) with
  | none =>
    rw [lookup_append_of_none hl, ← h, hl]
    have h2 : (k2 == k) = false := by simpa using hne
    simp [List.lookup_cons, h2]
  | some w =>
    rw [lookup_append_of_some hl, ← h, hl]

theorem removeItem_of_getItem_none {st : Storage} {k : String} (h : st.getItem k = none) :
    Storage.removeItem st k = st := by
  induction st with
  | nil => rfl
  | cons kv st ih =>
    obtain ⟨a, v⟩ := kv
    unfold Storage.getItem at h ih
    by_cases h2 : (k == a) = true
    · simp [List.lookup_cons, h2] at h
    · simp only [Bool.not_eq_true] at h2
      simp only [List.lookup_cons, h2] at h
      have h3 : a ≠ k := by
        intro e; subst e; simp at h2
      have := ih h
      unfold Storage.removeItem at this ⊢
      simp [List.filter_cons, h3, this]

theorem removeItem_setItem (st : Storage) (k v : String) :
    Storage.removeItem (Storage.setItem st k v) k = Storage.removeItem st k := by
  unfold Storage.setItem Storage.removeItem
  simp [List.filter_append, List.filter_filter]

theorem setDelete_setAdd {l : List String} {k : String} (h : k ∉ l) :
    setDelete (setAdd l k) k = l := by
  have hc : l.contains k = false := by simpa using h
  unfold setAdd setDelete
  simp only [hc]
  simp [List.filter_append]
  intro a ha e
  subst e
  exact h ha

theorem marker_ne_trigger (k : String) : "sb_processed_" ++ k ≠ "sb_auth_triggered" := by
  intro h
  have h2 := congrArg String.data h
  simp [String.data_append] at h2

/-! ## The handler's synchronous part -/

theorem processedTokenKey_ne_trigger (sess : Session) :
    processedTokenKey sess ≠ "sb_auth_triggered" :=
  marker_ne_trigger (tokenKey sess)

theorem handleAuthChange_of_redirecting (b : Browser) (s : Tab) (event : String)
    (session : Option Session) (h : s.isRedirecting = true) :
    handleAuthChange b s event session = s := by
  simp [handleAuthChange, h]

theorem tab_rollback_eq (s : Tab) (k : String) (hred : s.isRedirecting = false)
    (hmem : k ∉ s.processingTokens) :
    ({ s with processingTokens := setDelete (setAdd s.processingTokens k) k,
              isRedirecting := false } : Tab) = s := by
  rw [setDelete_setAdd hmem]
  cases s
  simp_all

/-- Every outcome of `handleAuthChange`: the state is unchanged (the event was
dropped by one of the guards), or every guard was passed and the event
proceeded to the backend call. -/
theorem handleAuthChange_cases (b : Browser) (s : Tab) (event : String)
    (session : Option Session) :
    (handleAuthChange b s event session = s ∧
      (s.isRedirecting = true ∨ event ≠ "SIGNED_IN" ∨ session = none ∨
        (s.userTriggeredAuth = false ∧ hasMagicLinkToken b = false) ∨
        ∃ sess, session = some sess ∧
          (tokenKey sess ∈ s.processingTokens ∨
            truthy (s.localStorage.getItem (processedTokenKey sess)) = true))) ∨
    (s.isRedirecting = false ∧ event = "SIGNED_IN" ∧
      (s.userTriggeredAuth = true ∨ hasMagicLinkToken b = true) ∧
      ∃ sess, session = some sess ∧ tokenKey sess ∉ s.processingTokens ∧
        truthy (s.localStorage.getItem (processedTokenKey sess)) = false ∧
        handleAuthChange b s event session =
          { s with
            processingTokens := setAdd s.processingTokens (tokenKey sess)
            isRedirecting := true
            localStorage := s.localStorage.setItem (processedTokenKey sess) "processing"
            pending := s.pending ++ [{ tokenKey := tokenKey sess,
                                       processedTokenKey := processedTokenKey sess,
                                       user := sess.user, accessToken := sess.access_token }]
            effects := s.effects ++ [Effect.backendCall sess.access_token] }) := by
  by_cases hred : s.isRedirecting = true
  · exact Or.inl ⟨handleAuthChange_of_redirecting b s event session hred, Or.inl hred⟩
  · have hred2 : s.isRedirecting = false := by simpa using hred
    cases session with
    | none =>
      refine Or.inl ⟨?_, Or.inr (Or.inr (Or.inl rfl))⟩
      simp only [handleAuthChange, if_neg hred]
    | some sess =>
      by_cases hq : event = "SIGNED_IN" ∧ (s.userTriggeredAuth || hasMagicLinkToken b) = true
      · obtain ⟨hq1, hq2⟩ := hq
        have htr : s.userTriggeredAuth = true ∨ hasMagicLinkToken b = true := by
          simpa using hq2
        by_cases hc : s.processingTokens.contains (tokenKey sess) = true
        · have hmem : tokenKey sess ∈ s.processingTokens := by simpa using hc
          refine Or.inl ⟨?_, Or.inr (Or.inr (Or.inr (Or.inr ⟨sess, rfl, Or.inl hmem⟩)))⟩
          simp only [handleAuthChange, if_neg hred, if_pos (And.intro hq1 hq2), if_pos hc]
        · have hmem : tokenKey sess ∉ s.processingTokens := by simpa using hc
          by_cases ht : truthy (s.localStorage.getItem (processedTokenKey sess)) = true
          · refine Or.inl ⟨?_, Or.inr (Or.inr (Or.inr (Or.inr ⟨sess, rfl, Or.inr ht⟩)))⟩
            simp only [handleAuthChange, if_neg hred, if_pos (And.intro hq1 hq2), if_neg hc,
              if_pos ht]
            exact tab_rollback_eq s (tokenKey sess) hred2 hmem
          · have ht2 : truthy (s.localStorage.getItem (processedTokenKey sess)) = false := by
              simpa using ht
            refine Or.inr ⟨hred2, hq1, htr, sess, rfl, hmem, ht2, ?_⟩
            simp only [handleAuthChange, if_neg hred, if_pos (And.intro hq1 hq2), if_neg hc,
              if_neg ht]
      · refine Or.inl ⟨?_, ?_⟩
        · simp only [handleAuthChange, if_neg hred, if_neg hq]
        · by_cases he : event = "SIGNED_IN"
          · right; right; right; left
            have : ¬ ((s.userTriggeredAuth || hasMagicLinkToken b) = true) := fun h => hq ⟨he, h⟩
            simpa using this
          · exact Or.inr (Or.inl he)

theorem handleAuthChange_proceed (b : Browser) (s : Tab) (sess : Session)
    (hred : s.isRedirecting = false)
    (htrig : s.userTriggeredAuth = true ∨ hasMagicLinkToken b = true)
    (hfresh : tokenKey sess ∉ s.processingTokens)
    (habsent : truthy (s.localStorage.getItem (processedTokenKey sess)) = false) :
    handleAuthChange b s "SIGNED_IN" (some sess) =
      { s with
        processingTokens := setAdd s.processingTokens (tokenKey sess)
        isRedirecting := true
        localStorage := s.localStorage.setItem (processedTokenKey sess) "processing"
        pending := s.pending ++ [{ tokenKey := tokenKey sess,
                                   processedTokenKey := processedTokenKey sess,
                                   user := sess.user, accessToken := sess.access_token }]
        effects := s.effects ++ [Effect.backendCall sess.access_token] } := by
  rcases handleAuthChange_cases b s "SIGNED_IN" (some sess) with ⟨_, h⟩ | ⟨_, _, _, sess2, h1, _, _, h2⟩
  · rcases h with h | h | h | h | ⟨sess2, h1, h2⟩
    · simp [hred] at h
    · exact absurd rfl h
    · simp at h
    · rcases htrig with ht | ht
      · simp [ht] at h
      · simp [ht] at h
    · simp only [Option.some.injEq] at h1
      subst h1
      rcases h2 with h2 | h2
      · exact absurd h2 hfresh
      · simp [habsent] at h2
  · simp only [Option.some.injEq] at h1
    subst h1
    exact h2

/-- A dropped event leaves the state as it was. -/
theorem handleAuthChange_dropped (b : Browser) (s : Tab) (event : String)
    (session : Option Session)
    (h : s.isRedirecting = true ∨ event ≠ "SIGNED_IN" ∨ session = none ∨
      (s.userTriggeredAuth = false ∧ hasMagicLinkToken b = false) ∨
      ∃ sess, session = some sess ∧
        (tokenKey sess ∈ s.processingTokens ∨
          truthy (s.localStorage.getItem (processedTokenKey sess)) = true)) :
    handleAuthChange b s event session = s := by
  rcases handleAuthChange_cases b s event session with ⟨h1, _⟩ | ⟨hred, hev, htr, sess, hs, hmem, ht, _⟩
  · exact h1
  · exfalso
    rcases h with h | h | h | h | ⟨sess2, h1, h2⟩
    · simp [hred] at h
    · exact h hev
    · simp [hs] at h
    · rcases htr with ht2 | ht2
      · simp [ht2] at h
      · simp [ht2] at h
    · rw [hs] at h1
      simp only [Option.some.injEq] at h1
      subst h1
      rcases h2 with h2 | h2
      · exact hmem h2
      · simp [ht] at h2

/-- C8: an event that `handleAuthChange` does not let proceed changes nothing.
If `isRedirecting` is set, or the tag is not `SIGNED_IN`, or there is no
session, or neither the trigger flag (the tab's `userTriggeredAuth`) nor an
access-token fragment is present, or the token key is in the in-flight set or
has a persisted marker, then the call returns the state it was given: the
in-flight set, `isRedirecting`, the trigger flag, `localStorage`, the
suspended backend calls and the trace of backend calls and navigations are
all as before. -/
theorem C8_dropped_event_is_noop (b : Browser) (s : Tab) (event : String)
    (session : Option Session)
    (h : s.isRedirecting = true ∨ event ≠ "SIGNED_IN" ∨ session = none ∨
      (s.userTriggeredAuth = false ∧ hasMagicLinkToken b = false) ∨
      ∃ sess, session = some sess ∧
        (tokenKey sess ∈ s.processingTokens ∨
          truthy (s.localStorage.getItem (processedTokenKey sess)) = true)) :
    handleAuthChange b s event session = s ∧
    (handleAuthChange b s event session).processingTokens = s.processingTokens ∧
    (handleAuthChange b s event session).isRedirecting = s.isRedirecting ∧
    (handleAuthChange b s event session).userTriggeredAuth = s.userTriggeredAuth ∧
    (handleAuthChange b s event session).localStorage = s.localStorage ∧
    (handleAuthChange b s event session).pending = s.pending ∧
    (handleAuthChange b s event session).effects = s.effects := by
  have key : handleAuthChange b s event session = s :=
    handleAuthChange_dropped b s event session h
  rw [key]
  simp

/-- C8, instance: a `SIGNED_IN` event with a session on a freshly loaded page
with no trigger flag and no access-token fragment. -/
theorem C8_dropped_event_is_noop_witness :
    ((pageLoad []).userTriggeredAuth = false ∧ hasMagicLinkToken exampleBrowser = false) ∧
    handleAuthChange exampleBrowser (pageLoad []) "SIGNED_IN" (some exampleSession) = pageLoad [] :=
  ⟨by decide,
    (C8_dropped_event_is_noop exampleBrowser (pageLoad []) "SIGNED_IN" (some exampleSession)
      (Or.inr (Or.inr (Or.inr (Or.inl (by decide)))))).1⟩

/-! ## One sign-in: backend failure and backend success -/

theorem step_backendResult_last (b : Browser) (cfg : AuthConfig) (O : String) (s : Tab)
    (l : List Pending) (p : Pending) (ok : Bool) (now : Int) (h : s.pending = l ++ [p]) :
    step b cfg O s (Input.backendResult l.length ok now) =
      resumeAuthChange b cfg O { s with pending := l } p ok now := by
  have h1 : s.pending.get? l.length = some p := by
    rw [h, List.get?_eq_getElem?, List.getElem?_concat_length]
  have h2 : s.pending.eraseIdx l.length = l := by
    rw [h, List.eraseIdx_append_of_length_le (Nat.le_refl _)]
    simp
  simp only [step, h1, h2]

theorem signInThenBackend_failure (b : Browser) (cfg : AuthConfig) (O : String) (s : Tab)
    (sess : Session) (now : Int)
    (hred : s.isRedirecting = false)
    (htrig : s.userTriggeredAuth = true ∨ hasMagicLinkToken b = true)
    (hfresh : tokenKey sess ∉ s.processingTokens)
    (habsent : s.localStorage.getItem (processedTokenKey sess) = none) :
    signInThenBackend b cfg O s sess false now =
      { s with effects := s.effects ++
          [Effect.backendCall sess.access_token, Effect.authError (tokenKey sess)] } := by
  have ht : truthy (s.localStorage.getItem (processedTokenKey sess)) = false := by
    rw [habsent]; rfl
  unfold signInThenBackend
  rw [step_backendResult_last b cfg O _ s.pending
    { tokenKey := tokenKey sess, processedTokenKey := processedTokenKey sess,
      user := sess.user, accessToken := sess.access_token } false now
    (by rw [handleAuthChange_proceed b s sess hred htrig hfresh ht])]
  rw [handleAuthChange_proceed b s sess hred htrig hfresh ht]
  simp only [resumeAuthChange, catchBlock, Bool.false_eq_true, if_false]
  rw [setDelete_setAdd hfresh, removeItem_setItem, removeItem_of_getItem_none habsent]
  cases s
  simp_all

theorem signInThenBackend_success (b : Browser) (cfg : AuthConfig) (O : String) (s : Tab)
    (sess : Session) (now : Int) (v : JSValue)
    (hred : s.isRedirecting = false)
    (htrig : s.userTriggeredAuth = true ∨ hasMagicLinkToken b = true)
    (hfresh : tokenKey sess ∉ s.processingTokens)
    (habsent : s.localStorage.getItem (processedTokenKey sess) = none)
    (hv : (if isNewUser b cfg now sess.user = true then getThankYouPage b cfg O
        else Completion.normal (JSValue.str (getReturnUrl b cfg O))) = Completion.normal v)
    (hres : (b.newURL (hrefString b v) b.href).isSome = true) :
    signInThenBackend b cfg O s sess true now =
      { s with
        processingTokens := setAdd s.processingTokens (tokenKey sess)
        isRedirecting := true
        localStorage :=
          (((s.localStorage.setItem (processedTokenKey sess) "processing").setItem
            (processedTokenKey sess) "true").removeItem "sb_auth_triggered")
        effects := s.effects ++ [Effect.backendCall sess.access_token, Effect.navigate v] } := by
  have ht : truthy (s.localStorage.getItem (processedTokenKey sess)) = false := by
    rw [habsent]; rfl
  unfold signInThenBackend
  rw [step_backendResult_last b cfg O _ s.pending
    { tokenKey := tokenKey sess, processedTokenKey := processedTokenKey sess,
      user := sess.user, accessToken := sess.access_token } true now
    (by rw [handleAuthChange_proceed b s sess hred htrig hfresh ht])]
  rw [handleAuthChange_proceed b s sess hred htrig hfresh ht]
  simp only [resumeAuthChange, if_true, hv, hres]
  simp

theorem navCount_append (l1 l2 : List Effect) :
    navCount (l1 ++ l2) = navCount l1 + navCount l2 := by
  simp [navCount]

/-- C6: when the backend call of a qualifying `SIGNED_IN` event with a fresh
token key fails, the state is rolled back.  The event did issue the backend
call; after the failure the key is in neither the in-flight set nor
`localStorage`, `isRedirecting` is false, the persisted trigger flag is what
it was, no navigation was added to the trace, and a second identical event
proceeds again and issues a new backend call. -/
theorem C6_backend_failure_rolls_back (b : Browser) (cfg : AuthConfig) (O : String) (s : Tab)
    (sess : Session) (now : Int)
    (hred : s.isRedirecting = false)
    (htrig : s.userTriggeredAuth = true ∨ hasMagicLinkToken b = true)
    (hfresh : tokenKey sess ∉ s.processingTokens)
    (habsent : s.localStorage.getItem (processedTokenKey sess) = none) :
    (handleAuthChange b s "SIGNED_IN" (some sess)).effects
      = s.effects ++ [Effect.backendCall sess.access_token] ∧
    tokenKey sess ∉ (signInThenBackend b cfg O s sess false now).processingTokens ∧
    (signInThenBackend b cfg O s sess false now).localStorage.getItem (processedTokenKey sess)
      = none ∧
    (signInThenBackend b cfg O s sess false now).isRedirecting = false ∧
    (signInThenBackend b cfg O s sess false now).localStorage.getItem "sb_auth_triggered"
      = s.localStorage.getItem "sb_auth_triggered" ∧
    (signInThenBackend b cfg O s sess false now).effects
      = s.effects ++ [Effect.backendCall sess.access_token, Effect.authError (tokenKey sess)] ∧
    navCount (signInThenBackend b cfg O s sess false now).effects = navCount s.effects ∧
    (handleAuthChange b (signInThenBackend b cfg O s sess false now) "SIGNED_IN" (some sess)).effects
      = (signInThenBackend b cfg O s sess false now).effects
          ++ [Effect.backendCall sess.access_token] ∧
    (handleAuthChange b (signInThenBackend b cfg O s sess false now) "SIGNED_IN" (some sess)).pending
      = (signInThenBackend b cfg O s sess false now).pending ++
          [{ tokenKey := tokenKey sess, processedTokenKey := processedTokenKey sess,
             user := sess.user, accessToken := sess.access_token }] := by
  have ht : truthy (s.localStorage.getItem (processedTokenKey sess)) = false := by
    rw [habsent]; rfl
  have hfail := signInThenBackend_failure b cfg O s sess now hred htrig hfresh habsent
  have hagain := handleAuthChange_proceed b
    { s with effects := s.effects ++
        [Effect.backendCall sess.access_token, Effect.authError (tokenKey sess)] }
    sess hred htrig hfresh ht
  rw [hfail, hagain, handleAuthChange_proceed b s sess hred htrig hfresh ht]
  refine ⟨rfl, hfresh, habsent, hred, rfl, rfl, ?_, rfl, rfl⟩
  simp [navCount_append, navCount, isNavigate]

/-- C6, instance: page loaded with the trigger flag set, the session of
`exampleSession`, backend failure. -/
theorem C6_backend_failure_rolls_back_witness :
    (signInThenBackend exampleBrowser (AUTH_CONFIG exampleBrowser) "/pricing"
        (pageLoad [("sb_auth_triggered", "true")]) exampleSession false 1704067201000).isRedirecting
      = false :=
  (C6_backend_failure_rolls_back exampleBrowser (AUTH_CONFIG exampleBrowser) "/pricing"
    (pageLoad [("sb_auth_triggered", "true")]) exampleSession 1704067201000
    (by decide) (by decide) (by decide) (by decide)).2.2.2.1

/-- C7 (evaluation at the failing input): on
`https://example.com/login?thank_you=//` with the trigger flag set, a
`SIGNED_IN` event of a user created one second before the backend call
succeeds.  `isNewUser` holds and `getThankYouPage()` is `"//"`, which
`isSafeRedirect` accepts and the browser cannot resolve; the assignment to
`window.location.href` throws inside the `try` block and the `catch` block
runs: afterwards the token key has no persisted marker, `isRedirecting` is
false and the trace holds the backend call and the error, no navigation. -/
theorem C7_unresolvable_target_rolls_back :
    isNewUser unresolvableThankYouBrowser (AUTH_CONFIG unresolvableThankYouBrowser)
      1704067201000 exampleSession.user = true ∧
    getThankYouPage unresolvableThankYouBrowser (AUTH_CONFIG unresolvableThankYouBrowser)
      "/pricing" = Completion.normal (JSValue.str "//") ∧
    isSafeRedirect unresolvableThankYouBrowser "//" = true ∧
    navigationOrigin unresolvableThankYouBrowser "//" = none ∧
    (signInThenBackend unresolvableThankYouBrowser (AUTH_CONFIG unresolvableThankYouBrowser)
      "/pricing" (pageLoad [("sb_auth_triggered", "true")]) exampleSession true
      1704067201000).localStorage.getItem (processedTokenKey exampleSession) = none ∧
    (signInThenBackend unresolvableThankYouBrowser (AUTH_CONFIG unresolvableThankYouBrowser)
      "/pricing" (pageLoad [("sb_auth_triggered", "true")]) exampleSession true
      1704067201000).isRedirecting = false ∧
    (signInThenBackend unresolvableThankYouBrowser (AUTH_CONFIG unresolvableThankYouBrowser)
      "/pricing" (pageLoad [("sb_auth_triggered", "true")]) exampleSession true
      1704067201000).effects
      = [Effect.backendCall exampleSession.access_token,
         Effect.authError (tokenKey exampleSession)] := by
  decide

/-! ## Runs of a tab -/

theorem openAfter_append (o : Option String) (l1 l2 : List Effect) :
    openAfter o (l1 ++ l2) = openAfter (openAfter o l1) l2 := by
  induction l1 generalizing o with
  | nil => rfl
  | cons e l ih => cases e <;> simp [openAfter, ih]

theorem gatedFrom_append (o : Option String) (l1 l2 : List Effect) :
    gatedFrom o (l1 ++ l2) = (gatedFrom o l1 && gatedFrom (openAfter o l1) l2) := by
  induction l1 generalizing o with
  | nil => simp [gatedFrom, openAfter]
  | cons e l ih => cases e <;> simp [gatedFrom, openAfter, ih, Bool.and_assoc]

theorem authError_mem_of_gatedFrom_some (k : String) (l2 l3 : List Effect) (t2 : String)
    (h : gatedFrom (some k) (l2 ++ Effect.backendCall t2 :: l3) = true) :
    Effect.authError k ∈ l2 := by
  induction l2 with
  | nil => simp [gatedFrom] at h
  | cons e l ih =>
    cases e with
    | backendCall t => simp [gatedFrom] at h
    | authError k2 =>
      by_cases hk : k = k2
      · subst hk; simp
      · have h2 : gatedFrom (some k) (l ++ Effect.backendCall t2 :: l3) = true := by
          simpa [gatedFrom, hk] using h
        exact List.mem_cons_of_mem _ (ih h2)
    | navigate u =>
      have h2 : gatedFrom (some k) (l ++ Effect.backendCall t2 :: l3) = true := by
        simpa [gatedFrom] using h
      exact List.mem_cons_of_mem _ (ih h2)

/-- In a gated trace, between two backend calls there is a failure of the
first one. -/
theorem authError_between_calls (o : Option String) (l1 l2 l3 : List Effect) (t1 t2 : String)
    (h : gatedFrom o (l1 ++ Effect.backendCall t1 :: (l2 ++ Effect.backendCall t2 :: l3)) = true) :
    Effect.authError (substring0 t1 20) ∈ l2 := by
  rw [gatedFrom_append] at h
  simp only [Bool.and_eq_true, gatedFrom] at h
  exact authError_mem_of_gatedFrom_some _ l2 l3 t2 h.2.2

theorem Phase_congr {s s2 : Tab} (h1 : s2.isRedirecting = s.isRedirecting)
    (h2 : s2.pending = s.pending) (h3 : s2.effects = s.effects) (h : Phase s) : Phase s2 := by
  unfold Phase at *
  rw [h1, h2, h3]
  exact h

theorem Phase_pageLoad (st : Storage) : Phase (pageLoad st) := by
  left
  simp [pageLoad, navCount, gatedFrom, openAfter]

theorem Phase_handleAuthChange (b : Browser) (s : Tab) (event : String)
    (session : Option Session) (h : Phase s) : Phase (handleAuthChange b s event session) := by
  rcases handleAuthChange_cases b s event session with ⟨h1, _⟩ | ⟨hred, _, _, sess, _, _, _, h2⟩
  · rw [h1]; exact h
  · rw [h2]
    rcases h with ⟨_, hp, hn, hg, ho⟩ | ⟨hr, _⟩ | ⟨hr, _⟩
    · right; left
      refine ⟨rfl, ⟨{ tokenKey := tokenKey sess, processedTokenKey := processedTokenKey sess,
                      user := sess.user, accessToken := sess.access_token }, ?_, ?_⟩, ?_, ?_⟩
      · simp only [hp, List.nil_append]
      · simp only [openAfter_append, ho, openAfter, tokenKey]
      · simp only [navCount_append, hn]
        simp [navCount, isNavigate]
      · simp only [gatedFrom_append, hg, ho, gatedFrom]
        simp
    · rw [hred] at hr; cases hr
    · rw [hred] at hr; cases hr

theorem Phase_step (b : Browser) (cfg : AuthConfig) (O : String) (s : Tab) (i : Input)
    (h : Phase s) : Phase (step b cfg O s i) := by
  cases i with
  | authEvent event session => exact Phase_handleAuthChange b s event session h
  | userTrigger => exact Phase_congr rfl rfl rfl h
  | storageSet k v => exact Phase_congr rfl rfl rfl h
  | storageRemove k => exact Phase_congr rfl rfl rfl h
  | backendResult i ok now =>
    rcases h with ⟨hr, hp, hn, hg, ho⟩ | ⟨hr, ⟨p, hp, ho⟩, hn, hg⟩ | ⟨hr, hp, hn, hg⟩
    · have : step b cfg O s (Input.backendResult i ok now) = s := by
        simp [step, hp]
      rw [this]; exact Or.inl ⟨hr, hp, hn, hg, ho⟩
    · cases i with
      | zero =>
        have hs : step b cfg O s (Input.backendResult 0 ok now) =
            resumeAuthChange b cfg O { s with pending := [] } p ok now := by
          simp [step, hp]
        rw [hs]
        rcases resumeAuthChange_cases b cfg O { s with pending := [] } p ok now with
          ⟨st, hc⟩ | ⟨_, v, _, _, hnav⟩
        · rw [hc]
          left
          refine ⟨rfl, rfl, ?_, ?_, ?_⟩
          · simp [catchBlock, navCount_append, hn]
            simp [navCount, isNavigate]
          · simp [catchBlock, gatedFrom_append, hg, ho, gatedFrom]
          · simp [catchBlock, openAfter_append, ho, openAfter]
        · rw [hnav]
          right; right
          refine ⟨hr, rfl, ?_, ?_⟩
          · simp [navCount_append, hn]
            simp [navCount, isNavigate]
          · simp [gatedFrom_append, hg, gatedFrom]
      | succ n =>
        have : step b cfg O s (Input.backendResult (n + 1) ok now) = s := by
          simp [step, hp]
        rw [this]; exact Or.inr (Or.inl ⟨hr, ⟨p, hp, ho⟩, hn, hg⟩)
    · have : step b cfg O s (Input.backendResult i ok now) = s := by
        simp [step, hp]
      rw [this]; exact Or.inr (Or.inr ⟨hr, hp, hn, hg⟩)

theorem run_append (b : Browser) (cfg : AuthConfig) (O : String) (s : Tab)
    (l1 l2 : List Input) : run b cfg O s (l1 ++ l2) = run b cfg O (run b cfg O s l1) l2 := by
  simp [run, List.foldl_append]

theorem Phase_run (b : Browser) (cfg : AuthConfig) (O : String) (s : Tab) (inputs : List Input)
    (h : Phase s) : Phase (run b cfg O s inputs) := by
  induction inputs generalizing s with
  | nil => exact h
  | cons i l ih => exact ih (step b cfg O s i) (Phase_step b cfg O s i h)

/-- Once navigation is initiated (`isRedirecting` set, no call outstanding), no
input changes the flags, the outstanding calls or the trace. -/
theorem redirecting_step (b : Browser) (cfg : AuthConfig) (O : String) (s : Tab) (i : Input)
    (hr : s.isRedirecting = true) (hp : s.pending = []) :
    (step b cfg O s i).isRedirecting = true ∧ (step b cfg O s i).pending = [] ∧
      (step b cfg O s i).effects = s.effects := by
  cases i with
  | authEvent event session =>
    have : step b cfg O s (Input.authEvent event session) = s :=
      handleAuthChange_of_redirecting b s event session hr
    rw [this]; exact ⟨hr, hp, rfl⟩
  | userTrigger => exact ⟨hr, hp, rfl⟩
  | storageSet k v => exact ⟨hr, hp, rfl⟩
  | storageRemove k => exact ⟨hr, hp, rfl⟩
  | backendResult i ok now =>
    have : step b cfg O s (Input.backendResult i ok now) = s := by
      simp [step, hp]
    rw [this]; exact ⟨hr, hp, rfl⟩

theorem redirecting_run (b : Browser) (cfg : AuthConfig) (O : String) (s : Tab)
    (more : List Input) (hr : s.isRedirecting = true) (hp : s.pending = []) :
    (run b cfg O s more).effects = s.effects ∧ (run b cfg O s more).pending = [] := by
  induction more generalizing s with
  | nil => exact ⟨rfl, hp⟩
  | cons i l ih =>
    obtain ⟨h1, h2, h3⟩ := redirecting_step b cfg O s i hr hp
    have := ih (step b cfg O s i) h1 h2
    exact ⟨by rw [← h3]; exact this.1, this.2⟩

theorem Phase_navCount_le {s : Tab} (h : Phase s) : navCount s.effects ≤ 1 := by
  rcases h with ⟨_, _, hn, _⟩ | ⟨_, _, hn, _⟩ | ⟨_, _, hn, _⟩ <;> omega

theorem Phase_pending_le {s : Tab} (h : Phase s) : s.pending.length ≤ 1 := by
  rcases h with ⟨_, hp, _⟩ | ⟨_, ⟨p, hp, _⟩, _⟩ | ⟨_, hp, _⟩ <;> simp [hp]

theorem Phase_gated {s : Tab} (h : Phase s) : gatedFrom none s.effects = true := by
  rcases h with ⟨_, _, _, hg, _⟩ | ⟨_, _, _, hg⟩ | ⟨_, _, _, hg⟩ <;> exact hg

theorem Phase_pending_redirecting {s : Tab} (h : Phase s) {p : Pending} (hp : p ∈ s.pending) :
    s.isRedirecting = true := by
  rcases h with ⟨_, hp2, _⟩ | ⟨hr, _⟩ | ⟨hr, _⟩
  · rw [hp2] at hp; cases hp
  · exact hr
  · exact hr

theorem Phase_navigated {s : Tab} (h : Phase s) (hn : navCount s.effects = 1) :
    s.isRedirecting = true ∧ s.pending = [] := by
  rcases h with ⟨_, _, hn2, _⟩ | ⟨_, _, hn2, _⟩ | ⟨hr, hp, _⟩
  · omega
  · omega
  · exact ⟨hr, hp⟩

/-- C4 counterexample: on `https://example.com/login?thank_you=//` with the
trigger flag set, the event of a new user is delivered, its backend call
succeeds, and the same event is delivered again.  The only backend outcome is
a success, yet the trace holds two backend calls for the same token: the
assignment of `"//"` to `window.location.href` threw, the `catch` block ran
and reopened the gate. -/
theorem C4_repeat_call_after_success :
    (run unresolvableThankYouBrowser (AUTH_CONFIG unresolvableThankYouBrowser) "/pricing"
        (pageLoad [("sb_auth_triggered", "true")])
        [Input.authEvent "SIGNED_IN" (some exampleSession),
         Input.backendResult 0 true 1704067201000,
         Input.authEvent "SIGNED_IN" (some exampleSession)]).effects
      = [Effect.backendCall exampleSession.access_token,
         Effect.authError (tokenKey exampleSession),
         Effect.backendCall exampleSession.access_token] := by
  decide

/-- C4 (amended): in every run of one tab from page load (events delivered,
backend calls settling, user triggers, other tabs writing to `localStorage`),
between two backend calls for the same token key the `catch` block of
`handleAuthChange` (the abort) has run for that key; and while a backend call
is unsettled, an event carrying the same token key is dropped: the state, and
with it the trace of backend calls, stays as it is. -/
theorem C4_backend_call_at_most_once (b : Browser) (cfg : AuthConfig) (O : String)
    (st : Storage) (inputs : List Input) :
    (∀ (l1 l2 l3 : List Effect) (t1 t2 : String),
      (run b cfg O (pageLoad st) inputs).effects
        = l1 ++ Effect.backendCall t1 :: (l2 ++ Effect.backendCall t2 :: l3) →
      substring0 t1 20 = substring0 t2 20 →
      Effect.authError (substring0 t1 20) ∈ l2) ∧
    (∀ p ∈ (run b cfg O (pageLoad st) inputs).pending, ∀ (event : String) (sess : Session),
      tokenKey sess = p.tokenKey →
      handleAuthChange b (run b cfg O (pageLoad st) inputs) event (some sess)
        = run b cfg O (pageLoad st) inputs) := by
  have hph := Phase_run b cfg O (pageLoad st) inputs (Phase_pageLoad st)
  refine ⟨?_, ?_⟩
  · intro l1 l2 l3 t1 t2 hlog _
    have hg := Phase_gated hph
    rw [hlog] at hg
    exact authError_between_calls none l1 l2 l3 t1 t2 hg
  · intro p hp event sess _
    exact handleAuthChange_of_redirecting b _ event (some sess) (Phase_pending_redirecting hph hp)

/-- C4, instance: event, backend failure, same event again.  The trace is
call, failure, call, and the failure lies between the two calls. -/
theorem C4_backend_call_at_most_once_witness :
    (run exampleBrowser (AUTH_CONFIG exampleBrowser) "/pricing"
        (pageLoad [("sb_auth_triggered", "true")])
        [Input.authEvent "SIGNED_IN" (some exampleSession),
         Input.authEvent "SIGNED_IN" (some exampleSession),
         Input.backendResult 0 false 1704067201000,
         Input.authEvent "SIGNED_IN" (some exampleSession)]).effects
      = [] ++ Effect.backendCall exampleSession.access_token ::
          ([Effect.authError (tokenKey exampleSession)] ++
            Effect.backendCall exampleSession.access_token :: []) ∧
    Effect.authError (substring0 exampleSession.access_token 20)
      ∈ [Effect.authError (tokenKey exampleSession)] :=
  ⟨by decide,
    (C4_backend_call_at_most_once exampleBrowser (AUTH_CONFIG exampleBrowser) "/pricing"
      [("sb_auth_triggered", "true")]
      [Input.authEvent "SIGNED_IN" (some exampleSession),
       Input.authEvent "SIGNED_IN" (some exampleSession),
       Input.backendResult 0 false 1704067201000,
       Input.authEvent "SIGNED_IN" (some exampleSession)]).1
      [] [Effect.authError (tokenKey exampleSession)] []
      exampleSession.access_token exampleSession.access_token (by decide) rfl⟩

/-- C5: in every run of one tab from page load, under any interleaving of
events, backend successes and failures, user triggers and writes by other
tabs, at most one navigation is initiated and at most one backend call is
outstanding; while `isRedirecting` is set every delivered event leaves the
state unchanged; and once a navigation has been initiated no further input
adds a backend call or a navigation to the trace. -/
theorem C5_single_navigation (b : Browser) (cfg : AuthConfig) (O : String)
    (st : Storage) (inputs : List Input) :
    navCount (run b cfg O (pageLoad st) inputs).effects ≤ 1 ∧
    (run b cfg O (pageLoad st) inputs).pending.length ≤ 1 ∧
    ((run b cfg O (pageLoad st) inputs).isRedirecting = true →
      ∀ (event : String) (session : Option Session),
        handleAuthChange b (run b cfg O (pageLoad st) inputs) event session
          = run b cfg O (pageLoad st) inputs) ∧
    (navCount (run b cfg O (pageLoad st) inputs).effects = 1 →
      ∀ more : List Input,
        (run b cfg O (pageLoad st) (inputs ++ more)).effects
          = (run b cfg O (pageLoad st) inputs).effects ∧
        (run b cfg O (pageLoad st) (inputs ++ more)).pending = []) := by
  have hph := Phase_run b cfg O (pageLoad st) inputs (Phase_pageLoad st)
  refine ⟨Phase_navCount_le hph, Phase_pending_le hph, ?_, ?_⟩
  · intro hr event session
    exact handleAuthChange_of_redirecting b _ event session hr
  · intro hn more
    obtain ⟨hr, hp⟩ := Phase_navigated hph hn
    rw [run_append]
    exact redirecting_run b cfg O _ more hr hp

/-- C5, instance: after a successful sign-in, three more qualifying events, a
user trigger and a stray backend result add nothing to the trace. -/
theorem C5_single_navigation_witness :
    navCount (run exampleBrowser (AUTH_CONFIG exampleBrowser) "/pricing"
        (pageLoad [("sb_auth_triggered", "true")])
        [Input.authEvent "SIGNED_IN" (some exampleSession),
         Input.backendResult 0 true 1704067201000]).effects = 1 ∧
    (run exampleBrowser (AUTH_CONFIG exampleBrowser) "/pricing"
        (pageLoad [("sb_auth_triggered", "true")])
        ([Input.authEvent "SIGNED_IN" (some exampleSession),
          Input.backendResult 0 true 1704067201000] ++
         [Input.authEvent "SIGNED_IN" (some exampleSession), Input.userTrigger,
          Input.authEvent "SIGNED_IN" (some exampleSession),
          Input.backendResult 0 true 1704067202000,
          Input.authEvent "SIGNED_IN" (some exampleSession)])).effects
      = (run exampleBrowser (AUTH_CONFIG exampleBrowser) "/pricing"
        (pageLoad [("sb_auth_triggered", "true")])
        [Input.authEvent "SIGNED_IN" (some exampleSession),
         Input.backendResult 0 true 1704067201000]).effects :=
  ⟨by decide,
    ((C5_single_navigation exampleBrowser (AUTH_CONFIG exampleBrowser) "/pricing"
      [("sb_auth_triggered", "true")]
      [Input.authEvent "SIGNED_IN" (some exampleSession),
       Input.backendResult 0 true 1704067201000]).2.2.2 (by decide)
      [Input.authEvent "SIGNED_IN" (some exampleSession), Input.userTrigger,
       Input.authEvent "SIGNED_IN" (some exampleSession),
       Input.backendResult 0 true 1704067202000,
       Input.authEvent "SIGNED_IN" (some exampleSession)]).1⟩

/-! ## Properties of the new-user classifier -/

theorem isNewUser_eq_of_parsed (b : Browser) (cfg : AuthConfig) (now : Int) (u : User)
    (c : String) (t : Int) (hc : u.created_at = some c) (hne : c ≠ "")
    (ht : b.dateParse c = some t) :
    isNewUser b cfg now (some u) = decide (now - t < cfg.newUserThreshold) := by
  simp [isNewUser, hc, truthy, hne, ht]

/-- C11: `isNewUser(user)` is true exactly when the user has a creation
timestamp (a non-empty `created_at`) that parses to a time `t` with `now - t`
strictly below the threshold.  It is true when `now - t` is the threshold
minus 1 ms, false when `now - t` is the threshold, and false when the user is
missing, when `created_at` is missing or empty, or when it does not parse.
The threshold of `AUTH_CONFIG` is 86 400 000 ms. -/
theorem C11_isNewUser_threshold (b : Browser) (cfg : AuthConfig) (now : Int)
    (user : Option User) :
    (isNewUser b cfg now user = true ↔
      ∃ u c t, user = some u ∧ u.created_at = some c ∧ c ≠ "" ∧ b.dateParse c = some t ∧
        now - t < cfg.newUserThreshold) ∧
    (∀ u c t, user = some u → u.created_at = some c → c ≠ "" → b.dateParse c = some t →
      now - t = cfg.newUserThreshold - 1 → isNewUser b cfg now user = true) ∧
    (∀ u c t, user = some u → u.created_at = some c → c ≠ "" → b.dateParse c = some t →
      now - t = cfg.newUserThreshold → isNewUser b cfg now user = false) ∧
    (user = none → isNewUser b cfg now user = false) ∧
    (∀ u, user = some u → (u.created_at = none ∨ u.created_at = some "") →
      isNewUser b cfg now user = false) ∧
    (∀ u c, user = some u → u.created_at = some c → b.dateParse c = none →
      isNewUser b cfg now user = false) ∧
    (AUTH_CONFIG b).newUserThreshold = 86400000 := by
  refine ⟨?_, ?_, ?_, ?_, ?_, ?_, rfl⟩
  · constructor
    · intro h
      cases user with
      | none => simp [isNewUser] at h
      | some u =>
        cases hc : u.created_at with
        | none => simp [isNewUser, hc, truthy] at h
        | some c =>
          by_cases hne : c = ""
          · simp [isNewUser, hc, truthy, hne] at h
          · cases ht : b.dateParse c with
            | none => simp [isNewUser, hc, truthy, hne, ht] at h
            | some t =>
              rw [isNewUser_eq_of_parsed b cfg now u c t hc hne ht] at h
              exact ⟨u, c, t, rfl, hc, hne, ht, by simpa using h⟩
    · rintro ⟨u, c, t, hu, hc, hne, ht, hlt⟩
      subst hu
      rw [isNewUser_eq_of_parsed b cfg now u c t hc hne ht]
      simpa using hlt
  · intro u c t hu hc hne ht hd
    subst hu
    rw [isNewUser_eq_of_parsed b cfg now u c t hc hne ht, hd]
    simp
  · intro u c t hu hc hne ht hd
    subst hu
    rw [isNewUser_eq_of_parsed b cfg now u c t hc hne ht, hd]
    simp
  · intro hu
    subst hu
    rfl
  · intro u hu hc
    subst hu
    rcases hc with hc | hc <;> simp [isNewUser, hc, truthy]
  · intro u c hu hc ht
    subst hu
    by_cases hne : c = ""
    · simp [isNewUser, hc, truthy, hne]
    · simp [isNewUser, hc, truthy, hne, ht]

/-- C11, instance: with the threshold of `AUTH_CONFIG`, the user of
`exampleSession` (created at 1 704 067 200 000 ms) is new 86 399 999 ms later
and no longer new 86 400 000 ms later; a user without `created_at` is not
new. -/
theorem C11_isNewUser_threshold_witness :
    isNewUser exampleBrowser (AUTH_CONFIG exampleBrowser) 1704153599999 exampleSession.user
      = true ∧
    isNewUser exampleBrowser (AUTH_CONFIG exampleBrowser) 1704153600000 exampleSession.user
      = false ∧
    isNewUser exampleBrowser (AUTH_CONFIG exampleBrowser) 1704153599999
      (some { created_at := none }) = false :=
  ⟨(C11_isNewUser_threshold exampleBrowser (AUTH_CONFIG exampleBrowser) 1704153599999
      exampleSession.user).2.1
      { created_at := some "2024-01-01T00:00:00.000Z" } "2024-01-01T00:00:00.000Z" 1704067200000
      rfl rfl (by decide) (by decide) (by decide),
    (C11_isNewUser_threshold exampleBrowser (AUTH_CONFIG exampleBrowser) 1704153600000
      exampleSession.user).2.2.1
      { created_at := some "2024-01-01T00:00:00.000Z" } "2024-01-01T00:00:00.000Z" 1704067200000
      rfl rfl (by decide) (by decide) (by decide),
    (C11_isNewUser_threshold exampleBrowser (AUTH_CONFIG exampleBrowser) 1704153599999
      (some { created_at := none })).2.2.2.2.1 { created_at := none } rfl (Or.inl rfl)⟩

end AuthForm
